import Mathlib

/-! # The multiview and viewport-array demonstration programs

A shallow embedding of `multiview.c` and `viewport_array.c`.

* The file-scope variables of each program form a `State` structure.
* Everything the graphics library reports back to the program (compile and
  link statuses, generated object names, framebuffer statuses) is an input,
  collected in a `GLEnv` structure.
* Everything the program does to the outside world is an output: the lines it
  writes to `stderr` and `stdout`, the GL commands it issues while rendering,
  and the exit status of `main`.
* The event loop consumes the finite sequence of results of `SDL_PollEvent`
  seen so far; `main` has returned when its exit status is `some _`.
-/

set_option linter.unusedVariables false

/-! ## Constants of the C library, SDL2 and OpenGL headers -/

/-- Value of `EXIT_SUCCESS` in `<stdlib.h>`. -/
def EXIT_SUCCESS : Int := 0

/-- Value of `EXIT_FAILURE` in `<stdlib.h>`. -/
def EXIT_FAILURE : Int := 1

/-- Value of `SDL_QUIT` in `SDL_events.h`. -/
def SDL_QUIT : Nat := 0x100

/-- Value of `SDL_WINDOWEVENT` in `SDL_events.h`. -/
def SDL_WINDOWEVENT : Nat := 0x200

/-- Value of `SDL_KEYDOWN` in `SDL_events.h`. -/
def SDL_KEYDOWN : Nat := 0x300

/-- Value of `SDL_WINDOWEVENT_EXPOSED` in `SDL_video.h`. -/
def SDL_WINDOWEVENT_EXPOSED : Nat := 3

/-- Key code of the D key, the character code of `d`. -/
def SDLK_d : Int := 100

/-- Key code of the M key, the character code of `m`. -/
def SDLK_m : Int := 109

/-- Key code of the V key, the character code of `v`. -/
def SDLK_v : Int := 118

/-- Value of `GL_FRAMEBUFFER_COMPLETE` in `glext.h`. -/
def GL_FRAMEBUFFER_COMPLETE : Nat := 0x8CD5

/-- The fields of `SDL_Event` that the programs read: `event.type`,
`event.key.keysym.sym` and `event.window.event`. -/
structure SDL_Event where
  type : Nat
  sym : Int
  window_event : Nat
deriving DecidableEq, Repr

/-- What GL reports during one call of `build_shader`: the compile status and
info log of the vertex and of the fragment shader, the name returned by
`glCreateProgram`, and the link status and info log of the program. The logs
are the text GL wrote into `info_log`. -/
structure ShaderGL where
  vert_status : Int
  vert_log : String
  frag_status : Int
  frag_log : String
  prog : Nat
  link_status : Int
  link_log : String
deriving DecidableEq, Repr

/-- Result of `build_shader`: the returned program name, the lines written to
`stderr`, and the sources handed to `glCompileShader`, in order. -/
structure Built where
  prog : Nat
  stderr : List String
  compiled : List String
deriving DecidableEq, Repr

/-- C `strcmp` on the contents of two NUL-terminated strings (the characters
before the terminator): negative, zero or positive as the first string is
less than, equal to or greater than the second. -/
def strcmp : List Char → List Char → Int
  | [], [] => 0
  | [], _ :: _ => -1
  | _ :: _, [] => 1
  | a :: as, b :: bs =>
    if a = b then strcmp as bs else (a.toNat : Int) - (b.toNat : Int)

/-- C conversion of an `int` to `unsigned int`. -/
def to_unsigned (n : Int) : Nat := (n % 2 ^ 32).toNat

/-- The `%#x` conversion of `printf`. -/
def fmt_hex (n : Nat) : String :=
  if n = 0 then "0" else "0x" ++ String.mk (Nat.toDigits 16 n)

namespace Multiview

def TEX_WIDTH : Int := 400

def TEX_HEIGHT : Int := 400

def SCREEN_WIDTH : Int := TEX_WIDTH * 2

def SCREEN_HEIGHT : Int := TEX_HEIGHT

/-- The file-scope variables of `multiview.c`. The arrays `fbo[3]`,
`clear_prog[2]` and `scene_prog[2]` are lists read with `getD` and written
with `set`. The last field is not a program variable: it counts the calls of
`glGenLists` made so far, so that each call gets its own answer from GL. -/
structure State where
  tex : Nat
  fbo : List Nat
  num_fbos : Nat
  clear_prog : List Nat
  scene_prog : List Nat
  buf_prog : Nat
  scene_list : Nat
  supports_multiview : Bool
  multiview : Bool
  display_lists : Bool
  gen_lists_calls : Nat
deriving DecidableEq, Repr

/-- The static initialisers of the file-scope variables. -/
def State.init : State where
  tex := 0
  fbo := [0, 0, 0]
  num_fbos := 0
  clear_prog := [0, 0]
  scene_prog := [0, 0]
  buf_prog := 0
  scene_list := 0
  supports_multiview := false
  multiview := false
  display_lists := true
  gen_lists_calls := 0

/-- Everything GL reports back to `multiview.c`: the value of
`GL_NUM_EXTENSIONS`, the extension names (`glGetStringi` returns the `i`-th
one, and NULL when there is none), the texture name, the framebuffer name written to `fbo[i]`, the status returned by
`glCheckFramebufferStatus` in iteration `i` of `setup_fbo`, the outcome of
each shader build, and the answer of the `k`-th call of `glGenLists`. -/
structure GLEnv where
  num_extensions : Int
  extensions : List String
  gen_texture : Nat
  gen_framebuffer : Nat → Nat
  framebuffer_status : Nat → Nat
  clear : Nat → ShaderGL
  scene : Nat → ShaderGL
  buf : ShaderGL
  gen_lists : Nat → Nat

def setup_textures (gl : GLEnv) (s : State) : State :=
  { s with tex := gl.gen_texture }

/-- The loop of `setup_fbo` from index `i` on: the return value of
`setup_fbo` and the lines written to `stderr`. -/
def setup_fbo_loop (gl : GLEnv) (s : State) (i : Nat) : Int × List String :=
  if h : i < s.num_fbos then
    let ret := gl.framebuffer_status i
    if ret ≠ GL_FRAMEBUFFER_COMPLETE then
      (1, ["Framebuffer incomplete: " ++ fmt_hex ret ++ "\n"])
    else
      setup_fbo_loop gl s (i + 1)
  else
    (0, [])
termination_by s.num_fbos - i

def setup_fbo (gl : GLEnv) (s : State) : State × Int × List String :=
  let num_fbos := if s.supports_multiview then 3 else 2
  let s1 : State :=
    { s with
      num_fbos := num_fbos
      fbo := (List.range 3).map fun i =>
        if i < num_fbos then gl.gen_framebuffer i else s.fbo.getD i 0 }
  (s1, setup_fbo_loop gl s1 0)

def build_shader (name vert_src frag_src : String) (gl : ShaderGL) : Built :=
  if gl.vert_status = 0 then
    ⟨0, [name ++ " vertex shader compilation failed: " ++ gl.vert_log ++ "\n"],
      [vert_src]⟩
  else if gl.frag_status = 0 then
    ⟨0, [name ++ " fragment shader compilation failed: " ++ gl.frag_log ++ "\n"],
      [vert_src, frag_src]⟩
  else if gl.link_status = 0 then
    ⟨0, [name ++ " shader link failed: " ++ gl.link_log ++ "\n"],
      [vert_src, frag_src]⟩
  else
    ⟨gl.prog, [], [vert_src, frag_src]⟩

def clear_vert_src (multiview_version : Nat) : String :=
  if multiview_version ≠ 0 then
    "#version 330 core\n" ++
    "#extension GL_OVR_multiview: enable\n" ++
    "layout (num_views = 2) in;\n" ++
    "layout (location = 0) in vec3 inPos;\n" ++
    "void main()\n" ++
    "\x7b\n" ++
    "  gl_Position = vec4(inPos, 1.0);\n" ++
    "\x7d\n"
  else
    "#version 330 core\n" ++
    "layout (location = 0) in vec3 inPos;\n" ++
    "void main()\n" ++
    "\x7b\n" ++
    "  gl_Position = vec4(inPos, 1.0);\n" ++
    "\x7d\n"

def clear_frag_src : String :=
  "#version 330 core\n" ++
  "layout(location = 0) out vec4 fragColor;\n" ++
  "void main()\n" ++
  "\x7b\n" ++
  "  fragColor = vec4(0.0, 0.0, 0.0, 0.0);\n" ++
  "\x7d\n"

/-- The function `setup_clear_shader`: new state, return value, `stderr`. -/
def setup_clear_shader (gl : GLEnv) (multiview_version : Nat) (s : State) :
    State × Int × List String :=
  let b := build_shader "Clear" (clear_vert_src multiview_version) clear_frag_src
    (gl.clear multiview_version)
  ({ s with clear_prog := s.clear_prog.set multiview_version b.prog },
    (if b.prog = 0 then 1 else 0), b.stderr)

def scene_vert_src (multiview_version : Nat) : String :=
  if multiview_version ≠ 0 then
    "#version 330 core\n" ++
    "#extension GL_OVR_multiview: enable\n" ++
    "#extension GL_ARB_shader_viewport_layer_array: enable\n" ++
    "layout (num_views = 2) in;\n" ++
    "layout (location = 0) in vec3 inPos;\n" ++
    "layout (location = 1) in vec3 inCol;\n" ++
    "out vec3 color;\n" ++
    "void main()\n" ++
    "\x7b\n" ++
    "  gl_Position = vec4(inPos, 1.0);\n" ++
    "  gl_ViewportIndex = int(gl_ViewID_OVR);\n" ++
    "  color = inCol;\n" ++
    "\x7d\n"
  else
    "#version 330 core\n" ++
    "#extension GL_ARB_shader_viewport_layer_array: enable\n" ++
    "layout (location = 0) in vec3 inPos;\n" ++
    "layout (location = 1) in vec3 inCol;\n" ++
    "out vec3 color;\n" ++
    "void main()\n" ++
    "\x7b\n" ++
    "  gl_Position = vec4(inPos, 1.0);\n" ++
    "  gl_ViewportIndex = 1;\n" ++
    "  color = inCol;\n" ++
    "\x7d\n"

def scene_frag_src : String :=
  "#version 330 core\n" ++
  "layout(location = 0) out vec4 fragColor;\n" ++
  "in vec3 color;\n" ++
  "void main()\n" ++
  "\x7b\n" ++
  "  fragColor = vec4(color, 1.0);\n" ++
  "\x7d\n"

/-- The function `setup_scene_shader`: new state, return value, `stderr`. -/
def setup_scene_shader (gl : GLEnv) (multiview_version : Nat) (s : State) :
    State × Int × List String :=
  let b := build_shader "Scene" (scene_vert_src multiview_version) scene_frag_src
    (gl.scene multiview_version)
  ({ s with scene_prog := s.scene_prog.set multiview_version b.prog },
    (if b.prog = 0 then 1 else 0), b.stderr)

def buf_vert_src : String :=
  "#version 330 core\n" ++
  "layout (location = 0) in vec3 inPos;\n" ++
  "layout (location = 1) in vec3 inTexcoord;\n" ++
  "out vec3 texcoord;\n" ++
  "void main()\n" ++
  "\x7b\n" ++
  "  gl_Position = vec4(inPos, 1.0);\n" ++
  "  texcoord = inTexcoord;\n" ++
  "\x7d\n"

def buf_frag_src : String :=
  "#version 330 core\n" ++
  "uniform sampler2DArray tex;\n" ++
  "in vec3 texcoord;\n" ++
  "layout(location = 0) out vec4 fragColor;\n" ++
  "void main()\n" ++
  "\x7b\n" ++
  "  fragColor = vec4(texture(tex, texcoord).rgb, 1.0);\n" ++
  "\x7d\n"

/-- The function `setup_buf_shader`: new state, return value, `stderr`. -/
def setup_buf_shader (gl : GLEnv) (s : State) : State × Int × List String :=
  let b := build_shader "Buffer" buf_vert_src buf_frag_src gl.buf
  ({ s with buf_prog := b.prog }, (if b.prog = 0 then 1 else 0), b.stderr)

/-- The calls of `setup` whose return value it tests. -/
inductive SetupCall where
  | setup_fbo
  | setup_clear_shader (multiview_version : Nat)
  | setup_scene_shader (multiview_version : Nat)
  | setup_buf_shader
deriving DecidableEq, Repr

/-- Outcome of `setup` or of a part of it: the state it leaves, its return
value, the lines written to `stderr`, and the calls it made, each with the
value that call returned. -/
structure SetupResult where
  state : State
  ret : Int
  stderr : List String
  calls : List (SetupCall × Int)
deriving DecidableEq, Repr

/-- One statement `if (f()) return 1;` of `setup`, where `f` is the call `c`. -/
def SetupResult.call (c : SetupCall) (f : State → State × Int × List String)
    (s : State) : SetupResult :=
  let r := f s
  ⟨r.1, (if r.2.1 ≠ 0 then 1 else 0), r.2.2, [(c, r.2.1)]⟩

/-- One statement `if (cond && f()) return 1;` of `setup`: `f` is called only
when `cond` is true. -/
def SetupResult.call_if (cond : Bool) (c : SetupCall)
    (f : State → State × Int × List String) (s : State) : SetupResult :=
  if cond then SetupResult.call c f s else ⟨s, 0, [], []⟩

/-- Sequencing of the statements of `setup`: when the first part has returned
nonzero the rest is not run. -/
def SetupResult.and_then (a : SetupResult) (rest : State → SetupResult) :
    SetupResult :=
  if a.ret ≠ 0 then a
  else
    let b := rest a.state
    ⟨b.state, b.ret, a.stderr ++ b.stderr, a.calls ++ b.calls⟩

def setup (gl : GLEnv) (s : State) : SetupResult :=
  (SetupResult.call .setup_fbo (setup_fbo gl) (setup_textures gl s)).and_then fun s =>
  (SetupResult.call_if s.supports_multiview (.setup_clear_shader 1)
    (setup_clear_shader gl 1) s).and_then fun s =>
  (SetupResult.call_if s.supports_multiview (.setup_scene_shader 1)
    (setup_scene_shader gl 1) s).and_then fun s =>
  (SetupResult.call (.setup_clear_shader 0) (setup_clear_shader gl 0) s).and_then fun s =>
  (SetupResult.call (.setup_scene_shader 0) (setup_scene_shader gl 0) s).and_then fun s =>
  SetupResult.call .setup_buf_shader (setup_buf_shader gl) s

/-- The expression passed to `glBindFramebuffer`: `fbo[i]` or the literal 0. -/
inductive Framebuffer where
  | fbo (i : Nat)
  | zero
deriving DecidableEq, Repr

/-- The expression passed to `glUseProgram` or `glDeleteProgram`:
`clear_prog[k]`, `scene_prog[k]` or `buf_prog`. -/
inductive Program where
  | clear_prog (k : Nat)
  | scene_prog (k : Nat)
  | buf_prog
deriving DecidableEq, Repr

/-- The constant vertex attribute arrays of the drawing functions. Their
contents (single-precision constants) are not represented. -/
inductive VertexData where
  | quad_verts
  | triangle_verts
  | triangle_col
  | buf_verts
  | buf_coords (layer : Nat)
deriving DecidableEq, Repr

inductive DrawMode where
  | GL_TRIANGLES
  | GL_TRIANGLE_STRIP
deriving DecidableEq, Repr

/-- The GL and SDL commands issued while rendering and cleaning up. Commands
that take a program or framebuffer record both the expression passed and its
value. -/
inductive Call where
  | glViewport (x y width height : Int)
  | glViewportIndexedf (index : Nat) (x y w h : Int)
  | glEnableVertexAttribArray (index : Nat)
  | glDisableVertexAttribArray (index : Nat)
  | glVertexAttribPointer (index size : Nat) (pointer : VertexData)
  | glDrawArrays (mode : DrawMode) (first count : Nat)
  | glGenLists (range : Nat)
  | glNewList (list : Nat)
  | glEndList
  | glCallList (list : Nat)
  | glUseProgram (program : Program) (name : Nat)
  | glBindTexture (texture : Nat)
  | glBindFramebuffer (framebuffer : Framebuffer) (name : Nat)
  | SDL_GL_SwapWindow
  | glDeleteLists (list range : Nat)
  | glDeleteFramebuffers (n : Nat) (framebuffers : List Nat)
  | glDeleteTextures (n : Nat) (texture : Nat)
  | glDeleteProgram (program : Program) (name : Nat)
deriving DecidableEq, Repr

def cleanup (s : State) : List Call :=
  [ .glDeleteLists s.scene_list 1,
    .glDeleteFramebuffers s.num_fbos s.fbo,
    .glDeleteTextures 1 s.tex,
    .glDeleteProgram (.clear_prog 0) (s.clear_prog.getD 0 0),
    .glDeleteProgram (.scene_prog 0) (s.scene_prog.getD 0 0) ] ++
  (if s.supports_multiview then
    [ .glDeleteProgram (.clear_prog 1) (s.clear_prog.getD 1 0),
      .glDeleteProgram (.scene_prog 1) (s.scene_prog.getD 1 0) ]
  else []) ++
  [ .glDeleteProgram .buf_prog s.buf_prog ]

def render_quad : List Call :=
  [ .glEnableVertexAttribArray 0,
    .glVertexAttribPointer 0 3 .quad_verts,
    .glDrawArrays .GL_TRIANGLES 0 3,
    .glDisableVertexAttribArray 0 ]

def render_triangle : List Call :=
  [ .glEnableVertexAttribArray 0,
    .glEnableVertexAttribArray 1,
    .glVertexAttribPointer 0 3 .triangle_verts,
    .glVertexAttribPointer 1 3 .triangle_col,
    .glDrawArrays .GL_TRIANGLES 0 3,
    .glDisableVertexAttribArray 0,
    .glDisableVertexAttribArray 1 ]

def clear : List Call :=
  [ .glViewport 0 0 TEX_WIDTH TEX_HEIGHT ] ++ render_quad

/-- The function `render_scene`: the state it leaves (it may assign
`scene_list`) and the commands it issues. -/
def render_scene (gl : GLEnv) (s : State) : State × List Call :=
  let viewports : List Call :=
    [ .glViewport 0 0 TEX_WIDTH TEX_HEIGHT,
      .glViewportIndexedf 0 0 0 TEX_WIDTH TEX_HEIGHT,
      .glViewportIndexedf 1 0 0 TEX_WIDTH TEX_HEIGHT ]
  if s.display_lists then
    if s.scene_list = 0 then
      let scene_list := gl.gen_lists s.gen_lists_calls
      ({ s with scene_list := scene_list, gen_lists_calls := s.gen_lists_calls + 1 },
        viewports ++ [ .glGenLists 1, .glNewList scene_list ] ++ render_triangle ++
          [ .glEndList, .glCallList scene_list ])
    else
      (s, viewports ++ [ .glCallList s.scene_list ])
  else
    (s, viewports ++ render_triangle)

def render_buf_layer (layer : Nat) : List Call :=
  [ .glEnableVertexAttribArray 0,
    .glEnableVertexAttribArray 1,
    .glVertexAttribPointer 0 3 .buf_verts,
    .glVertexAttribPointer 1 3 (.buf_coords layer),
    .glDrawArrays .GL_TRIANGLE_STRIP 0 4,
    .glDisableVertexAttribArray 0,
    .glDisableVertexAttribArray 1 ]

def render_buf (s : State) : List Call :=
  [ .glUseProgram .buf_prog s.buf_prog, .glBindTexture s.tex ] ++
  ((List.range 2).map fun (i : Nat) =>
    [ Call.glViewport (i * TEX_WIDTH) 0 TEX_WIDTH TEX_HEIGHT ] ++ render_buf_layer i).flatten ++
  [ .glBindTexture 0 ]

/-- The loop of `render` from index `i` on. -/
def render_loop (gl : GLEnv) (i : Nat) (s : State) : State × List Call :=
  if h : i < (if s.multiview then 3 else 2) then
    let k := if s.multiview then 1 else 0
    let scene := render_scene gl s
    let rest := render_loop gl (i + 1) scene.1
    (rest.1,
      [ .glBindFramebuffer (.fbo i) (s.fbo.getD i 0),
        .glUseProgram (.clear_prog k) (s.clear_prog.getD k 0) ] ++
      clear ++
      [ .glUseProgram (.scene_prog k) (s.scene_prog.getD k 0) ] ++
      scene.2 ++ rest.2)
  else
    (s, [])
termination_by (if s.multiview then 3 else 2) - i
decreasing_by
  have hm : (render_scene gl s).1.multiview = s.multiview := by
    unfold render_scene
    split_ifs <;> rfl
  rw [hm]
  cases hs : s.multiview <;> simp [hs] at h ⊢ <;> omega

def render (gl : GLEnv) (s : State) : State × List Call :=
  let views := render_loop gl (if s.multiview then 2 else 0) s
  (views.1,
    views.2 ++ [ .glBindFramebuffer .zero 0 ] ++ render_buf views.1 ++
      [ .SDL_GL_SwapWindow ])

/-- The scan of `checkExtensions` from index `i` on, returning the value of
`supports_multiview` it leaves; `target` is the name compared against,
`num_extensions` the value of `GL_NUM_EXTENSIONS` and `extensions` the names
`glGetStringi` returns. The index is an `unsigned int` and the count an `int`,
so the comparison converts the count. The result is `none` when `glGetStringi`
returns NULL, which `strcmp` must not be given. -/
def checkExtensions_loop (target : String) (num_extensions : Int)
    (extensions : List String) (i : Nat) (supports_multiview : Bool) : Option Bool :=
  if h : i < to_unsigned num_extensions then
    match extensions[i]? with
    | none => none
    | some name =>
      if strcmp name.data target.data = 0 then
        some true
      else
        checkExtensions_loop target num_extensions extensions (i + 1) supports_multiview
  else
    some supports_multiview
termination_by to_unsigned num_extensions - i

/-- The function `checkExtensions`: the state it leaves and the line it
prints. -/
def checkExtensions (gl : GLEnv) (s : State) : Option (State × List String) :=
  match checkExtensions_loop "GL_OVR_multiview" gl.num_extensions gl.extensions 0
      s.supports_multiview with
  | none => none
  | some supports_multiview =>
    some ({ s with supports_multiview := supports_multiview, multiview := supports_multiview },
      if supports_multiview then
        ["GL_OVR_multiview is supported and ENABLED\n"]
      else
        ["GL_OVR_multiview is unsupported and DISABLED\n"])

/-- The text written by `snprintf` into a buffer of `size` bytes. -/
def snprintf (size : Nat) (text : String) : String :=
  String.mk (text.data.take (size - 1))

/-- The function `updateWindowTitle`: the title handed to
`SDL_SetWindowTitle`. -/
def updateWindowTitle (s : State) : String :=
  snprintf 128
    ("Multiview test | Multiview: " ++ (if s.multiview then "ON" else "OFF") ++
      " (" ++ (if s.supports_multiview then "supported, M to toggle" else "unsupported") ++
      ") | Display lists: " ++ (if s.display_lists then "ON" else "OFF") ++
      " (D to toggle)")

/-- The calls `main` makes to the other functions of the program, each with
what that call did. -/
inductive Op where
  | checkExtensions (stdout : List String)
  | setup (stderr : List String)
  | updateWindowTitle (title : String)
  | render (calls : List Call)
  | cleanup (calls : List Call)
deriving DecidableEq, Repr

/-- The body of the `while (SDL_PollEvent(&event))` loop of `main` for one
event: the state it leaves, the calls it makes, and the value `main` returns
if the body returns from `main`. -/
def loop_body (gl : GLEnv) (s : State) (event : SDL_Event) :
    State × List Op × Option Int :=
  if event.type = SDL_QUIT then
    (s, [.cleanup (cleanup s)], some EXIT_SUCCESS)
  else
    let key : State × List Op :=
      if event.type = SDL_KEYDOWN then
        if event.sym = SDLK_d then
          let s1 := { s with display_lists := !s.display_lists }
          let r := render gl s1
          (r.1, [.updateWindowTitle (updateWindowTitle s1), .render r.2])
        else if s.supports_multiview && event.sym = SDLK_m then
          let s1 := { s with multiview := !s.multiview }
          let r := render gl s1
          (r.1, [.updateWindowTitle (updateWindowTitle s1), .render r.2])
        else
          (s, [])
      else
        (s, [])
    let exposed : State × List Op :=
      if event.type = SDL_WINDOWEVENT ∧ event.window_event = SDL_WINDOWEVENT_EXPOSED then
        let r := render gl key.1
        (r.1, [.render r.2])
      else
        (key.1, [])
    (exposed.1, key.2 ++ exposed.2, none)

/-- The loop `for (;;) while (SDL_PollEvent(&event)) ...` of `main` run on a
finite sequence of results of `SDL_PollEvent`, where `none` stands for a
return value of 0 (no pending event: the `while` loop ends and `for` starts
it again). The exit status is `none` when `main` has not returned by the end
of the sequence. -/
def event_loop (gl : GLEnv) (s : State) :
    List (Option SDL_Event) → State × List Op × Option Int
  | [] => (s, [], none)
  | none :: polls => event_loop gl s polls
  | some event :: polls =>
    let r := loop_body gl s event
    match r.2.2 with
    | some status => (r.1, r.2.1, some status)
    | none =>
      let rest := event_loop gl r.1 polls
      (rest.1, r.2.1 ++ rest.2.1, rest.2.2)

/-- Outcome of `main`: the final values of the variables, the calls made, and
the exit status (`none` while `main` is still in its event loop). -/
structure MainResult where
  state : State
  ops : List Op
  status : Option Int
deriving DecidableEq, Repr

/-- The function `main`, for the GL inputs `gl` and the sequence `polls` of
results of `SDL_PollEvent`. The result is `none` when `checkExtensions` has
no defined behaviour. -/
def main (gl : GLEnv) (polls : List (Option SDL_Event)) : Option MainResult :=
  match checkExtensions gl State.init with
  | none => none
  | some (s0, stdout) =>
    let r := setup gl s0
    if r.ret ≠ 0 then
      some ⟨r.state, [.checkExtensions stdout, .setup r.stderr], some EXIT_FAILURE⟩
    else
      let run := event_loop gl r.state polls
      some ⟨run.1,
        [.checkExtensions stdout, .setup r.stderr,
          .updateWindowTitle (updateWindowTitle r.state)] ++ run.2.1,
        run.2.2⟩

end Multiview

namespace ViewportArray

def VP_WIDTH : Int := 400

def VP_HEIGHT : Int := 400

def SCREEN_WIDTH : Int := 2 * VP_WIDTH

def SCREEN_HEIGHT : Int := VP_HEIGHT

/-- The file-scope variables of `viewport_array.c`; the array `scene_prog[2]`
is a list read with `getD` and written with `set`. -/
structure State where
  scene_prog : List Nat
  supports_viewport_array : Bool
  viewport_array : Bool
deriving DecidableEq, Repr

/-- The static initialisers of the file-scope variables. -/
def State.init : State where
  scene_prog := [0, 0]
  supports_viewport_array := false
  viewport_array := false

/-- Everything GL reports back to `viewport_array.c`: the value of
`GL_NUM_EXTENSIONS`, the extension names (`glGetStringi` returns the `i`-th
one, and NULL when there is none), and the outcome of each shader build. -/
structure GLEnv where
  num_extensions : Int
  extensions : List String
  scene : Nat → ShaderGL

def build_shader (name vert_src frag_src : String) (gl : ShaderGL) : Built :=
  if gl.vert_status = 0 then
    ⟨0, [name ++ " vertex shader compilation failed: " ++ gl.vert_log ++ "\n"],
      [vert_src]⟩
  else if gl.frag_status = 0 then
    ⟨0, [name ++ " fragment shader compilation failed: " ++ gl.frag_log ++ "\n"],
      [vert_src, frag_src]⟩
  else if gl.link_status = 0 then
    ⟨0, [name ++ " shader link failed: " ++ gl.link_log ++ "\n"],
      [vert_src, frag_src]⟩
  else
    ⟨gl.prog, [], [vert_src, frag_src]⟩

def scene_vert_src (viewport_array_version : Nat) : String :=
  if viewport_array_version ≠ 0 then
    "#version 330 core\n" ++
    "#extension GL_ARB_shader_viewport_layer_array: enable\n" ++
    "layout (location = 0) in vec3 inPos;\n" ++
    "layout (location = 1) in vec3 inCol;\n" ++
    "out vec3 color;\n" ++
    "void main()\n" ++
    "\x7b\n" ++
    "  gl_Position = vec4(inPos, 1.0);\n" ++
    "  color = inCol;\n" ++
    "  gl_ViewportIndex = 1;\n" ++
    "\x7d\n"
  else
    "#version 330 core\n" ++
    "layout (location = 0) in vec3 inPos;\n" ++
    "layout (location = 1) in vec3 inCol;\n" ++
    "out vec3 color;\n" ++
    "void main()\n" ++
    "\x7b\n" ++
    "  gl_Position = vec4(inPos, 1.0);\n" ++
    "  color = inCol;\n" ++
    "\x7d\n"

def scene_frag_src : String :=
  "#version 330 core\n" ++
  "layout(location = 0) out vec4 fragColor;\n" ++
  "in vec3 color;\n" ++
  "void main()\n" ++
  "\x7b\n" ++
  "  fragColor = vec4(color, 1.0);\n" ++
  "\x7d\n"

/-- The function `setup_scene_shader`: new state, return value, `stderr`. -/
def setup_scene_shader (gl : GLEnv) (viewport_array_version : Nat) (s : State) :
    State × Int × List String :=
  let b := build_shader "Scene" (scene_vert_src viewport_array_version) scene_frag_src
    (gl.scene viewport_array_version)
  ({ s with scene_prog := s.scene_prog.set viewport_array_version b.prog },
    (if b.prog = 0 then 1 else 0), b.stderr)

/-- Outcome of `setup` or of a part of it: the state it leaves, its return
value, the lines written to `stderr`, and the versions of the scene shader it
tried to build, each with the value `setup_scene_shader` returned. -/
structure SetupResult where
  state : State
  ret : Int
  stderr : List String
  calls : List (Nat × Int)
deriving DecidableEq, Repr

/-- One statement `if (setup_scene_shader(v)) return 1;` of `setup`. -/
def SetupResult.call (gl : GLEnv) (v : Nat) (s : State) : SetupResult :=
  let r := setup_scene_shader gl v s
  ⟨r.1, (if r.2.1 ≠ 0 then 1 else 0), r.2.2, [(v, r.2.1)]⟩

/-- One statement `if (cond && setup_scene_shader(v)) return 1;` of `setup`:
the function is called only when `cond` is true. -/
def SetupResult.call_if (cond : Bool) (gl : GLEnv) (v : Nat) (s : State) :
    SetupResult :=
  if cond then SetupResult.call gl v s else ⟨s, 0, [], []⟩

/-- Sequencing of the statements of `setup`: when the first part has returned
nonzero the rest is not run. -/
def SetupResult.and_then (a : SetupResult) (rest : State → SetupResult) :
    SetupResult :=
  if a.ret ≠ 0 then a
  else
    let b := rest a.state
    ⟨b.state, b.ret, a.stderr ++ b.stderr, a.calls ++ b.calls⟩

def setup (gl : GLEnv) (s : State) : SetupResult :=
  (SetupResult.call_if s.supports_viewport_array gl 1 s).and_then fun s =>
  SetupResult.call gl 0 s

/-- The constant vertex attribute arrays of `render_triangle`; the colour
array depends on the argument `vpi`. Their contents (single-precision
constants) are not represented. -/
inductive VertexData where
  | verts
  | col (vpi : Int)
deriving DecidableEq, Repr

/-- The GL and SDL commands issued while rendering and cleaning up. The
commands that take a program record the index `k` of the expression
`scene_prog[k]` passed and its value. -/
inductive Call where
  | glClear
  | glUseProgram (k : Nat) (name : Nat)
  | glViewport (x y width height : Int)
  | glViewportIndexedf (index : Nat) (x y w h : Int)
  | glEnableVertexAttribArray (index : Nat)
  | glDisableVertexAttribArray (index : Nat)
  | glVertexAttribPointer (index size : Nat) (pointer : VertexData)
  | glDrawArrays (first count : Nat)
  | SDL_GL_SwapWindow
  | glDeleteProgram (k : Nat) (name : Nat)
deriving DecidableEq, Repr

def cleanup (s : State) : List Call :=
  [ .glDeleteProgram 0 (s.scene_prog.getD 0 0) ] ++
  (if s.supports_viewport_array then
    [ .glDeleteProgram 1 (s.scene_prog.getD 1 0) ]
  else [])

def render_triangle (vpi : Int) : List Call :=
  [ .glEnableVertexAttribArray 0,
    .glEnableVertexAttribArray 1,
    .glVertexAttribPointer 0 3 .verts,
    .glVertexAttribPointer 1 3 (.col vpi),
    .glDrawArrays 0 3,
    .glDisableVertexAttribArray 0,
    .glDisableVertexAttribArray 1 ]

def render (s : State) : List Call :=
  [ .glClear,
    .glUseProgram 0 (s.scene_prog.getD 0 0),
    .glViewport 0 0 VP_WIDTH VP_HEIGHT ] ++
  render_triangle 0 ++
  [ .glUseProgram (if s.viewport_array then 1 else 0)
      (s.scene_prog.getD (if s.viewport_array then 1 else 0) 0) ] ++
  (if !s.viewport_array then
    [ .glViewport VP_WIDTH 0 VP_WIDTH VP_HEIGHT ]
  else
    [ .glViewportIndexedf 0 0 0 VP_WIDTH VP_HEIGHT,
      .glViewportIndexedf 1 VP_WIDTH 0 VP_WIDTH VP_HEIGHT ]) ++
  render_triangle 1 ++
  [ .SDL_GL_SwapWindow ]

/-- The scan of `checkExtensions` from index `i` on, returning the value of
`supports_viewport_array` it leaves; `target` is the name compared against,
`num_extensions` the value of `GL_NUM_EXTENSIONS` and `extensions` the names
`glGetStringi` returns. The index is an `unsigned int` and the count an `int`,
so the comparison converts the count. The result is `none` when `glGetStringi`
returns NULL, which `strcmp` must not be given. -/
def checkExtensions_loop (target : String) (num_extensions : Int)
    (extensions : List String) (i : Nat) (supports_viewport_array : Bool) :
    Option Bool :=
  if h : i < to_unsigned num_extensions then
    match extensions[i]? with
    | none => none
    | some name =>
      checkExtensions_loop target num_extensions extensions (i + 1)
        (if strcmp name.data target.data = 0 then true else supports_viewport_array)
  else
    some supports_viewport_array
termination_by to_unsigned num_extensions - i

/-- The function `checkExtensions`: the state it leaves and the line it
prints. -/
def checkExtensions (gl : GLEnv) (s : State) : Option (State × List String) :=
  match checkExtensions_loop "GL_ARB_shader_viewport_layer_array" gl.num_extensions
      gl.extensions 0 s.supports_viewport_array with
  | none => none
  | some supports_viewport_array =>
    some ({ s with
        supports_viewport_array := supports_viewport_array
        viewport_array := supports_viewport_array },
      if supports_viewport_array then
        ["GL_ARB_shader_viewport_layer_array is supported and ENABLED\n"]
      else
        ["GL_ARB_shader_viewport_layer_array is unsupported and DISABLED\n"])

/-- The text written by `snprintf` into a buffer of `size` bytes. -/
def snprintf (size : Nat) (text : String) : String :=
  String.mk (text.data.take (size - 1))

/-- The function `updateWindowTitle`: the title handed to
`SDL_SetWindowTitle`. -/
def updateWindowTitle (s : State) : String :=
  snprintf 128
    ("Viewport Array test | Viewport Array: Left Off, Right " ++
      (if s.viewport_array then "ON" else "OFF") ++
      " (" ++
      (if s.supports_viewport_array then "supported, V to toggle" else "unsupported") ++
      ")")

/-- The calls `main` makes to the other functions of the program, each with
what that call did. -/
inductive Op where
  | checkExtensions (stdout : List String)
  | setup (stderr : List String)
  | updateWindowTitle (title : String)
  | render (calls : List Call)
  | cleanup (calls : List Call)
deriving DecidableEq, Repr

/-- The body of the `while (SDL_PollEvent(&event))` loop of `main` for one
event: the state it leaves, the calls it makes, and the value `main` returns
if the body returns from `main`. -/
def loop_body (s : State) (event : SDL_Event) : State × List Op × Option Int :=
  if event.type = SDL_QUIT then
    (s, [.cleanup (cleanup s)], some EXIT_SUCCESS)
  else
    let key : State × List Op :=
      if event.type = SDL_KEYDOWN then
        if s.supports_viewport_array && event.sym = SDLK_v then
          let s1 := { s with viewport_array := !s.viewport_array }
          (s1, [.updateWindowTitle (updateWindowTitle s1), .render (render s1)])
        else
          (s, [])
      else
        (s, [])
    let exposed : List Op :=
      if event.type = SDL_WINDOWEVENT ∧ event.window_event = SDL_WINDOWEVENT_EXPOSED then
        [.render (render key.1)]
      else
        []
    (key.1, key.2 ++ exposed, none)

/-- The loop `for (;;) while (SDL_PollEvent(&event)) ...` of `main` run on a
finite sequence of results of `SDL_PollEvent`, where `none` stands for a
return value of 0 (no pending event: the `while` loop ends and `for` starts
it again). The exit status is `none` when `main` has not returned by the end
of the sequence. -/
def event_loop (s : State) : List (Option SDL_Event) → State × List Op × Option Int
  | [] => (s, [], none)
  | none :: polls => event_loop s polls
  | some event :: polls =>
    let r := loop_body s event
    match r.2.2 with
    | some status => (r.1, r.2.1, some status)
    | none =>
      let rest := event_loop r.1 polls
      (rest.1, r.2.1 ++ rest.2.1, rest.2.2)

/-- Outcome of `main`: the final values of the variables, the calls made, and
the exit status (`none` while `main` is still in its event loop). -/
structure MainResult where
  state : State
  ops : List Op
  status : Option Int
deriving DecidableEq, Repr

/-- The function `main`, for the GL inputs `gl` and the sequence `polls` of
results of `SDL_PollEvent`. The result is `none` when `checkExtensions` has
no defined behaviour. -/
def main (gl : GLEnv) (polls : List (Option SDL_Event)) : Option MainResult :=
  match checkExtensions gl State.init with
  | none => none
  | some (s0, stdout) =>
    let r := setup gl s0
    if r.ret ≠ 0 then
      some ⟨r.state, [.checkExtensions stdout, .setup r.stderr], some EXIT_FAILURE⟩
    else
      let run := event_loop r.state polls
      some ⟨run.1,
        [.checkExtensions stdout, .setup r.stderr,
          .updateWindowTitle (updateWindowTitle r.state)] ++ run.2.1,
        run.2.2⟩

end ViewportArray

/-! ## Observations on command streams and a model of the GL viewport array -/

namespace Multiview

/-- The framebuffer expression of a `glBindFramebuffer` command. -/
def Call.framebuffer? : Call → Option Framebuffer
  | .glBindFramebuffer f _ => some f
  | _ => none

/-- The program expression of a `glUseProgram` command, with its value. -/
def Call.program? : Call → Option (Program × Nat)
  | .glUseProgram p name => some (p, name)
  | _ => none

/-- Handling the delivered events one after the other, in the order of the
list, each by the body of the event loop: the state reached and the calls
made. This is the reference against which `event_loop` is compared. -/
def handled_in_order (gl : GLEnv) (s : State) : List SDL_Event → State × List Op
  | [] => (s, [])
  | event :: events =>
    let r := loop_body gl s event
    let rest := handled_in_order gl r.1 events
    (rest.1, r.2.1 ++ rest.2)

end Multiview

namespace ViewportArray

/-- Handling the delivered events one after the other, in the order of the
list, each by the body of the event loop: the state reached and the calls
made. This is the reference against which `event_loop` is compared. -/
def handled_in_order (s : State) : List SDL_Event → State × List Op
  | [] => (s, [])
  | event :: events =>
    let r := loop_body s event
    let rest := handled_in_order r.1 events
    (rest.1, r.2.1 ++ rest.2)

/-- A viewport rectangle: lower left corner, width and height. -/
structure Viewport where
  x : Int
  y : Int
  w : Int
  h : Int
deriving DecidableEq, Repr

/-- The pixel `(px, py)` lies in the rectangle. -/
def Viewport.covers (v : Viewport) (px py : Int) : Prop :=
  v.x ≤ px ∧ px < v.x + v.w ∧ v.y ≤ py ∧ py < v.y + v.h

/-- Does `text` begin with `pattern`? -/
def begins_with : List Char → List Char → Bool
  | [], _ => true
  | _ :: _, [] => false
  | p :: ps, c :: cs => p == c && begins_with ps cs

/-- Does `pattern` occur in `text`? -/
def occurs_in (pattern : List Char) : List Char → Bool
  | [] => begins_with pattern []
  | c :: cs => begins_with pattern (c :: cs) || occurs_in pattern cs

/-- The viewport a vertex shader of this program sends its primitives to:
viewport 1 when the source assigns `gl_ViewportIndex = 1`, and viewport 0 when
it does not write `gl_ViewportIndex`. -/
def shader_viewport_index (vert_src : String) : Nat :=
  if occurs_in "gl_ViewportIndex = 1;".data vert_src.data then 1 else 0

/-- The part of the GL state that decides where a draw lands: the viewport
array, the vertex shader source of the program in use, and the array bound to
vertex attribute 1 (the colours). -/
structure GLState where
  viewports : Nat → Viewport
  vert_src : String
  colours : Option VertexData

/-- One rasterised draw: the colour array it used and the viewport rectangle
it was sent to. -/
structure Draw where
  colours : Option VertexData
  viewport : Viewport
deriving DecidableEq, Repr

/-- Effect of one command on the GL state, and the draw it causes if any.
`glViewport` sets every viewport of the array, `glViewportIndexedf` sets the
one with the given index, and `glUseProgram(scene_prog[k])` selects the
program that `setup_scene_shader(k)` built from `scene_vert_src k`. -/
def GLState.step (st : GLState) : Call → GLState × List Draw
  | .glViewport x y width height =>
    ({ st with viewports := fun _ => ⟨x, y, width, height⟩ }, [])
  | .glViewportIndexedf index x y w h =>
    ({ st with viewports := fun i => if i = index then ⟨x, y, w, h⟩ else st.viewports i }, [])
  | .glUseProgram k _ => ({ st with vert_src := scene_vert_src k }, [])
  | .glVertexAttribPointer index _ pointer =>
    (if index = 1 then { st with colours := some pointer } else st, [])
  | .glDrawArrays _ _ =>
    (st, [⟨st.colours, st.viewports (shader_viewport_index st.vert_src)⟩])
  | _ => (st, [])

/-- The draws caused by a command stream, in order. -/
def GLState.run (st : GLState) : List Call → List Draw
  | [] => []
  | c :: cs => (st.step c).2 ++ GLState.run (st.step c).1 cs

end ViewportArray

/-! ## Invariants of the event loop -/

namespace Multiview

/-- What holds of the variables from a successful `setup` on: the state `s0`
is the one `setup` was called in. Multiview is on only if supported, the
support flag and the number of framebuffers are as `setup` left them, and
`clear_prog[k]`, `scene_prog[k]` (for `k = 0`, and for `k = 1` when multiview
is supported) and `buf_prog` hold the nonzero names that the builds made by
`setup` returned. -/
def Ready (gl : GLEnv) (s0 s : State) : Prop :=
  (s.multiview = true → s.supports_multiview = true) ∧
  s.supports_multiview = s0.supports_multiview ∧
  s.num_fbos = (if s0.supports_multiview then 3 else 2) ∧
  (∀ k, k = 0 ∨ (k = 1 ∧ s0.supports_multiview = true) →
    (s.clear_prog.getD k 0 ≠ 0 ∧
      s.clear_prog.getD k 0 =
        (build_shader "Clear" (clear_vert_src k) clear_frag_src (gl.clear k)).prog ∧
      (SetupCall.setup_clear_shader k, 0) ∈ (setup gl s0).calls) ∧
    (s.scene_prog.getD k 0 ≠ 0 ∧
      s.scene_prog.getD k 0 =
        (build_shader "Scene" (scene_vert_src k) scene_frag_src (gl.scene k)).prog ∧
      (SetupCall.setup_scene_shader k, 0) ∈ (setup gl s0).calls)) ∧
  (s.buf_prog ≠ 0 ∧
    s.buf_prog = (build_shader "Buffer" buf_vert_src buf_frag_src gl.buf).prog ∧
    (SetupCall.setup_buf_shader, 0) ∈ (setup gl s0).calls)

/-- A command stream that binds only framebuffers `fbo[i]` with `i` below the
number `setup` generated, and uses only programs that `setup`, called in state
`s0`, built with a nonzero name. -/
def Safe (gl : GLEnv) (s0 : State) (calls : List Call) : Prop :=
  (∀ i, Framebuffer.fbo i ∈ calls.filterMap Call.framebuffer? →
    i < (if s0.supports_multiview then 3 else 2)) ∧
  (∀ k name, (Program.clear_prog k, name) ∈ calls.filterMap Call.program? →
    name ≠ 0 ∧
    name = (build_shader "Clear" (clear_vert_src k) clear_frag_src (gl.clear k)).prog ∧
    (SetupCall.setup_clear_shader k, 0) ∈ (setup gl s0).calls) ∧
  (∀ k name, (Program.scene_prog k, name) ∈ calls.filterMap Call.program? →
    name ≠ 0 ∧
    name = (build_shader "Scene" (scene_vert_src k) scene_frag_src (gl.scene k)).prog ∧
    (SetupCall.setup_scene_shader k, 0) ∈ (setup gl s0).calls) ∧
  (∀ name, (Program.buf_prog, name) ∈ calls.filterMap Call.program? →
    name ≠ 0 ∧
    name = (build_shader "Buffer" buf_vert_src buf_frag_src gl.buf).prog ∧
    (SetupCall.setup_buf_shader, 0) ∈ (setup gl s0).calls)

end Multiview

namespace ViewportArray

/-- The index and value of the program of a `glUseProgram` command. -/
def Call.program? : Call → Option (Nat × Nat)
  | .glUseProgram k name => some (k, name)
  | _ => none

/-- What holds of the variables from a successful `setup` on: the state `s0`
is the one `setup` was called in. The viewport array is on only if supported,
the support flag is as `setup` left it, and `scene_prog[k]` (for `k = 0`, and
for `k = 1` when the viewport array is supported) holds the nonzero name that
the build made by `setup` returned. -/
def Ready (gl : GLEnv) (s0 s : State) : Prop :=
  (s.viewport_array = true → s.supports_viewport_array = true) ∧
  s.supports_viewport_array = s0.supports_viewport_array ∧
  (∀ k, k = 0 ∨ (k = 1 ∧ s0.supports_viewport_array = true) →
    s.scene_prog.getD k 0 ≠ 0 ∧
    s.scene_prog.getD k 0 =
      (build_shader "Scene" (scene_vert_src k) scene_frag_src (gl.scene k)).prog ∧
    (k, 0) ∈ (setup gl s0).calls)

/-- A command stream that uses only programs `scene_prog[k]` that `setup`,
called in state `s0`, built with a nonzero name. -/
def Safe (gl : GLEnv) (s0 : State) (calls : List Call) : Prop :=
  ∀ k name, (k, name) ∈ calls.filterMap Call.program? →
    name ≠ 0 ∧
    name = (build_shader "Scene" (scene_vert_src k) scene_frag_src (gl.scene k)).prog ∧
    (k, 0) ∈ (setup gl s0).calls ∧
    (k = 1 → s0.supports_viewport_array = true)

end ViewportArray

/-! ## The diagnostics of `build_shader` -/

/-- The line `build_shader` writes when the vertex shader does not compile:
the format `"%s vertex shader compilation failed: %s\n"`. -/
def vertex_diagnostic (name info_log : String) : String :=
  name ++ " vertex shader compilation failed: " ++ info_log ++ "\n"

/-- The line `build_shader` writes when the fragment shader does not compile:
the format `"%s fragment shader compilation failed: %s\n"`. -/
def fragment_diagnostic (name info_log : String) : String :=
  name ++ " fragment shader compilation failed: " ++ info_log ++ "\n"

/-- The line `build_shader` writes when the program does not link: the format
`"%s shader link failed: %s\n"`. -/
def link_diagnostic (name info_log : String) : String :=
  name ++ " shader link failed: " ++ info_log ++ "\n"

/-! ## Sequences of `render_scene` calls and D toggles -/

namespace Multiview

/-- The three viewport commands every call of `render_scene` begins with. -/
def scene_viewports : List Call :=
  [ .glViewport 0 0 TEX_WIDTH TEX_HEIGHT,
    .glViewportIndexedf 0 0 0 TEX_WIDTH TEX_HEIGHT,
    .glViewportIndexedf 1 0 0 TEX_WIDTH TEX_HEIGHT ]

/-- One step of a sequence of `render_scene` calls interleaved with D toggles:
a call of `render_scene`, or the assignment `display_lists = !display_lists`
of the D key handler. -/
inductive SceneStep where
  | render_scene
  | toggle_display_lists
deriving DecidableEq, Repr

/-- Running a sequence of steps from state `s`: the state reached, and for
each call of `render_scene`, in order, the state it was made in and the
commands it issued. -/
def scene_steps (gl : GLEnv) (s : State) : List SceneStep → State × List (State × List Call)
  | [] => (s, [])
  | .toggle_display_lists :: steps =>
    scene_steps gl { s with display_lists := !s.display_lists } steps
  | .render_scene :: steps =>
    let r := render_scene gl s
    let rest := scene_steps gl r.1 steps
    (rest.1, (s, r.2) :: rest.2)

end Multiview

/-! ## Sample inputs -/

/-- Outcome of a build in which both shaders compile and the program `prog`
links. -/
def ShaderGL.ok (prog : Nat) : ShaderGL := ⟨1, "", 1, "", prog, 1, ""⟩

/-- Outcome of a build whose vertex shader does not compile. -/
def ShaderGL.bad_vertex : ShaderGL := ⟨0, "0:1: error", 1, "", 7, 1, ""⟩

/-- Outcome of a build whose fragment shader does not compile. -/
def ShaderGL.bad_fragment : ShaderGL := ⟨1, "", 0, "0:1: error", 7, 1, ""⟩

/-- A driver that reports `GL_OVR_multiview` and on which every setup step of
`multiview.c` succeeds. -/
def Multiview.sample_gl : Multiview.GLEnv where
  num_extensions := 2
  extensions := ["GL_ARB_shader_viewport_layer_array", "GL_OVR_multiview"]
  gen_texture := 1
  gen_framebuffer := fun i => i + 1
  framebuffer_status := fun _ => GL_FRAMEBUFFER_COMPLETE
  clear := fun v => ShaderGL.ok (1 + v)
  scene := fun v => ShaderGL.ok (3 + v)
  buf := ShaderGL.ok 5
  gen_lists := fun k => k + 1

/-- The state of `multiview.c` after `checkExtensions` on `sample_gl`. -/
def Multiview.sample_state : Multiview.State :=
  { Multiview.State.init with supports_multiview := true, multiview := true }

/-- A driver that reports `GL_ARB_shader_viewport_layer_array` and on which
every setup step of `viewport_array.c` succeeds. -/
def ViewportArray.sample_gl : ViewportArray.GLEnv where
  num_extensions := 2
  extensions := ["GL_ARB_shader_viewport_layer_array", "GL_OVR_multiview"]
  scene := fun v => ShaderGL.ok (1 + v)

/-- The state of `viewport_array.c` after `checkExtensions` on `sample_gl`. -/
def ViewportArray.sample_state : ViewportArray.State :=
  { ViewportArray.State.init with supports_viewport_array := true, viewport_array := true }

/-- A key-down event for the key with code `sym`. -/
def key_down (sym : Int) : SDL_Event := ⟨SDL_KEYDOWN, sym, 0⟩

/-- The event sent when the window is closed. -/
def quit_event : SDL_Event := ⟨SDL_QUIT, 0, 0⟩

/-- The event sent when the window has to be redrawn. -/
def exposed_event : SDL_Event := ⟨SDL_WINDOWEVENT, 0, SDL_WINDOWEVENT_EXPOSED⟩

/-! ## Setup (C1) -/

/-- The loop of `setup_fbo` returns nonzero exactly when one of the remaining
framebuffers is reported incomplete. -/
theorem Multiview.mv_setup_fbo_loop_ne_zero (gl : Multiview.GLEnv) (s : Multiview.State) :
    ∀ (n i : Nat), s.num_fbos - i = n →
      ((Multiview.setup_fbo_loop gl s i).1 ≠ 0 ↔
        ∃ j, i ≤ j ∧ j < s.num_fbos ∧ gl.framebuffer_status j ≠ GL_FRAMEBUFFER_COMPLETE) := by
  intro n
  induction n with
  | zero =>
    intro i hn
    rw [Multiview.setup_fbo_loop]
    have hi : ¬ i < s.num_fbos := by omega
    simp only [hi, dite_false, ne_eq, not_true_eq_false, false_iff]
    rintro ⟨j, h1, h2, -⟩
    omega
  | succ n ih =>
    intro i hn
    rw [Multiview.setup_fbo_loop]
    have hi : i < s.num_fbos := by omega
    simp only [hi, dite_true]
    by_cases hst : gl.framebuffer_status i = GL_FRAMEBUFFER_COMPLETE
    · simp only [hst, ne_eq, not_true_eq_false, ite_false]
      refine (ih (i + 1) (by omega)).trans ?_
      constructor
      · rintro ⟨j, h1, h2, h3⟩
        exact ⟨j, by omega, h2, h3⟩
      · rintro ⟨j, h1, h2, h3⟩
        refine ⟨j, ?_, h2, h3⟩
        by_contra hlt
        have : j = i := by omega
        subst this
        exact h3 hst
    · simp only [ne_eq, hst, not_false_eq_true, ite_true]
      constructor
      · intro _
        exact ⟨i, le_refl i, hi, hst⟩
      · intro _
        decide

/-- The function `setup_fbo` returns nonzero exactly when one of the
framebuffers it sets up is reported incomplete. -/
theorem Multiview.mv_setup_fbo_ret (gl : Multiview.GLEnv) (s : Multiview.State) :
    (Multiview.setup_fbo gl s).2.1 ≠ 0 ↔
      ∃ i, i < (if s.supports_multiview then 3 else 2) ∧
        gl.framebuffer_status i ≠ GL_FRAMEBUFFER_COMPLETE := by
  unfold Multiview.setup_fbo
  refine (Multiview.mv_setup_fbo_loop_ne_zero gl _ _ 0 rfl).trans ?_
  constructor
  · rintro ⟨j, -, h2, h3⟩
    exact ⟨j, h2, h3⟩
  · rintro ⟨j, h2, h3⟩
    exact ⟨j, Nat.zero_le j, h2, h3⟩

namespace Multiview

theorem mv_and_then_ret_ne_zero (a : SetupResult) (rest : State → SetupResult) :
    (a.and_then rest).ret ≠ 0 ↔ a.ret ≠ 0 ∨ (rest a.state).ret ≠ 0 := by
  unfold SetupResult.and_then
  by_cases h : a.ret = 0 <;> simp [h]

theorem mv_and_then_calls (a : SetupResult) (rest : State → SetupResult) :
    (a.and_then rest).calls =
      if a.ret ≠ 0 then a.calls else a.calls ++ (rest a.state).calls := by
  unfold SetupResult.and_then
  by_cases h : a.ret = 0 <;> simp [h]

theorem mv_call_ret_ne_zero (c : SetupCall) (f : State → State × Int × List String)
    (s : State) : (SetupResult.call c f s).ret ≠ 0 ↔ (f s).2.1 ≠ 0 := by
  unfold SetupResult.call
  by_cases h : (f s).2.1 = 0 <;> simp [h]

theorem mv_call_if_ret_ne_zero (cond : Bool) (c : SetupCall)
    (f : State → State × Int × List String) (s : State) :
    (SetupResult.call_if cond c f s).ret ≠ 0 ↔ cond = true ∧ (f s).2.1 ≠ 0 := by
  unfold SetupResult.call_if
  cases cond
  · simp
  · simpa using mv_call_ret_ne_zero c f s

theorem mv_setup_clear_shader_ret (gl : GLEnv) (v : Nat) (s : State) :
    (setup_clear_shader gl v s).2.1 ≠ 0 ↔
      (build_shader "Clear" (clear_vert_src v) clear_frag_src (gl.clear v)).prog = 0 := by
  unfold setup_clear_shader
  by_cases h : (build_shader "Clear" (clear_vert_src v) clear_frag_src (gl.clear v)).prog = 0 <;>
    simp [h]

theorem mv_setup_scene_shader_ret (gl : GLEnv) (v : Nat) (s : State) :
    (setup_scene_shader gl v s).2.1 ≠ 0 ↔
      (build_shader "Scene" (scene_vert_src v) scene_frag_src (gl.scene v)).prog = 0 := by
  unfold setup_scene_shader
  by_cases h : (build_shader "Scene" (scene_vert_src v) scene_frag_src (gl.scene v)).prog = 0 <;>
    simp [h]

theorem mv_setup_buf_shader_ret (gl : GLEnv) (s : State) :
    (setup_buf_shader gl s).2.1 ≠ 0 ↔
      (build_shader "Buffer" buf_vert_src buf_frag_src gl.buf).prog = 0 := by
  unfold setup_buf_shader
  by_cases h : (build_shader "Buffer" buf_vert_src buf_frag_src gl.buf).prog = 0 <;>
    simp [h]

theorem mv_call_state (c : SetupCall) (f : State → State × Int × List String)
    (s : State) : (SetupResult.call c f s).state = (f s).1 := rfl

theorem mv_call_if_state (cond : Bool) (c : SetupCall)
    (f : State → State × Int × List String) (s : State) :
    (SetupResult.call_if cond c f s).state = if cond then (f s).1 else s := by
  unfold SetupResult.call_if
  cases cond <;> simp [mv_call_state]

theorem mv_setup_fbo_supports (gl : GLEnv) (s : State) :
    (setup_fbo gl s).1.supports_multiview = s.supports_multiview := rfl

theorem mv_setup_clear_shader_supports (gl : GLEnv) (v : Nat) (s : State) :
    (setup_clear_shader gl v s).1.supports_multiview = s.supports_multiview := rfl

theorem mv_setup_scene_shader_supports (gl : GLEnv) (v : Nat) (s : State) :
    (setup_scene_shader gl v s).1.supports_multiview = s.supports_multiview := rfl

theorem mv_setup_ret_ne_zero (gl : GLEnv) (s : State) :
    ((setup gl s).ret ≠ 0 ↔
      (∃ i, i < (if s.supports_multiview then 3 else 2) ∧
        gl.framebuffer_status i ≠ GL_FRAMEBUFFER_COMPLETE) ∨
      (s.supports_multiview = true ∧
        (build_shader "Clear" (clear_vert_src 1) clear_frag_src (gl.clear 1)).prog = 0) ∨
      (s.supports_multiview = true ∧
        (build_shader "Scene" (scene_vert_src 1) scene_frag_src (gl.scene 1)).prog = 0) ∨
      (build_shader "Clear" (clear_vert_src 0) clear_frag_src (gl.clear 0)).prog = 0 ∨
      (build_shader "Scene" (scene_vert_src 0) scene_frag_src (gl.scene 0)).prog = 0 ∨
      (build_shader "Buffer" buf_vert_src buf_frag_src gl.buf).prog = 0) := by
  unfold setup
  simp only [mv_and_then_ret_ne_zero, mv_call_ret_ne_zero, mv_call_if_ret_ne_zero, mv_call_state,
    mv_call_if_state, mv_setup_fbo_ret, mv_setup_clear_shader_ret, mv_setup_scene_shader_ret,
    mv_setup_buf_shader_ret, mv_setup_fbo_supports, mv_setup_clear_shader_supports,
    mv_setup_scene_shader_supports, apply_ite State.supports_multiview, ite_self]
  rfl

theorem mv_call_calls (c : SetupCall) (f : State → State × Int × List String)
    (s : State) : (SetupResult.call c f s).calls = [(c, (f s).2.1)] := rfl

theorem mv_call_if_calls (cond : Bool) (c : SetupCall)
    (f : State → State × Int × List String) (s : State) :
    (SetupResult.call_if cond c f s).calls = if cond then [(c, (f s).2.1)] else [] := by
  unfold SetupResult.call_if
  cases cond <;> simp [mv_call_calls]

theorem mv_call_fails_iff (c : SetupCall) (f : State → State × Int × List String)
    (s : State) :
    (SetupResult.call c f s).ret ≠ 0 ↔ ∃ x ∈ (SetupResult.call c f s).calls, x.2 ≠ 0 := by
  rw [mv_call_ret_ne_zero, mv_call_calls]
  simp

theorem mv_call_if_fails_iff (cond : Bool) (c : SetupCall)
    (f : State → State × Int × List String) (s : State) :
    (SetupResult.call_if cond c f s).ret ≠ 0 ↔
      ∃ x ∈ (SetupResult.call_if cond c f s).calls, x.2 ≠ 0 := by
  rw [mv_call_if_ret_ne_zero, mv_call_if_calls]
  cases cond <;> simp

theorem mv_and_then_fails_iff (a : SetupResult) (rest : State → SetupResult)
    (ha : a.ret ≠ 0 ↔ ∃ x ∈ a.calls, x.2 ≠ 0)
    (hb : (rest a.state).ret ≠ 0 ↔ ∃ x ∈ (rest a.state).calls, x.2 ≠ 0) :
    (a.and_then rest).ret ≠ 0 ↔ ∃ x ∈ (a.and_then rest).calls, x.2 ≠ 0 := by
  rw [mv_and_then_ret_ne_zero, mv_and_then_calls]
  by_cases h : a.ret = 0
  · have hnone : ¬ ∃ x ∈ a.calls, x.2 ≠ 0 := fun hx => (ha.mpr hx) h
    simp only [h, ne_eq, not_true_eq_false, false_or, ite_false, List.mem_append]
    refine hb.trans ?_
    constructor
    · rintro ⟨x, hx, hx2⟩
      exact ⟨x, Or.inr hx, hx2⟩
    · rintro ⟨x, hx | hx, hx2⟩
      · exact absurd ⟨x, hx, hx2⟩ hnone
      · exact ⟨x, hx, hx2⟩
  · simp only [ne_eq, h, not_false_eq_true, true_or, ite_true, true_iff]
    exact ha.mp h

theorem mv_setup_fails_iff_call_fails (gl : GLEnv) (s : State) :
    (setup gl s).ret ≠ 0 ↔ ∃ x ∈ (setup gl s).calls, x.2 ≠ 0 := by
  unfold setup
  refine mv_and_then_fails_iff _ _ (mv_call_fails_iff _ _ _) ?_
  refine mv_and_then_fails_iff _ _ (mv_call_if_fails_iff _ _ _ _) ?_
  refine mv_and_then_fails_iff _ _ (mv_call_if_fails_iff _ _ _ _) ?_
  refine mv_and_then_fails_iff _ _ (mv_call_fails_iff _ _ _) ?_
  refine mv_and_then_fails_iff _ _ (mv_call_fails_iff _ _ _) ?_
  exact mv_call_fails_iff _ _ _

/-- The calls of `setup` in program order. -/
theorem mv_setup_calls_in_order (gl : GLEnv) (s : State) :
    (setup gl s).calls.map Prod.fst <+:
      [SetupCall.setup_fbo] ++
      (if s.supports_multiview then
        [SetupCall.setup_clear_shader 1, SetupCall.setup_scene_shader 1] else []) ++
      [SetupCall.setup_clear_shader 0, SetupCall.setup_scene_shader 0,
        SetupCall.setup_buf_shader] := by
  unfold setup
  simp only [mv_and_then_calls, mv_call_calls, mv_call_if_calls, mv_call_state, mv_call_if_state,
    mv_setup_fbo_supports, mv_setup_clear_shader_supports, mv_setup_scene_shader_supports,
    apply_ite State.supports_multiview, ite_self]
  have hs : (setup_textures gl s).supports_multiview = s.supports_multiview := rfl
  rw [hs]
  cases s.supports_multiview <;> split_ifs <;> simp

end Multiview

namespace ViewportArray

theorem va_and_then_ret_ne_zero (a : SetupResult) (rest : State → SetupResult) :
    (a.and_then rest).ret ≠ 0 ↔ a.ret ≠ 0 ∨ (rest a.state).ret ≠ 0 := by
  unfold SetupResult.and_then
  by_cases h : a.ret = 0 <;> simp [h]

theorem va_setup_scene_shader_ret (gl : GLEnv) (v : Nat) (s : State) :
    (setup_scene_shader gl v s).2.1 ≠ 0 ↔
      (build_shader "Scene" (scene_vert_src v) scene_frag_src (gl.scene v)).prog = 0 := by
  unfold setup_scene_shader
  by_cases h : (build_shader "Scene" (scene_vert_src v) scene_frag_src (gl.scene v)).prog = 0 <;>
    simp [h]

theorem va_call_ret_ne_zero (gl : GLEnv) (v : Nat) (s : State) :
    (SetupResult.call gl v s).ret ≠ 0 ↔
      (build_shader "Scene" (scene_vert_src v) scene_frag_src (gl.scene v)).prog = 0 := by
  rw [← va_setup_scene_shader_ret gl v s]
  unfold SetupResult.call
  by_cases h : (setup_scene_shader gl v s).2.1 = 0 <;> simp [h]

theorem va_call_calls_ne_zero (gl : GLEnv) (v : Nat) (s : State) :
    (∃ x ∈ (SetupResult.call gl v s).calls, x.2 ≠ 0) ↔
      (build_shader "Scene" (scene_vert_src v) scene_frag_src (gl.scene v)).prog = 0 := by
  rw [← va_setup_scene_shader_ret gl v s]
  simp [SetupResult.call]

theorem va_call_if_supports (cond : Bool) (gl : GLEnv) (v : Nat) (s : State) :
    (SetupResult.call_if cond gl v s).state.supports_viewport_array =
      s.supports_viewport_array := by
  cases cond <;> rfl

theorem va_setup_ret_ne_zero (gl : GLEnv) (s : State) :
    (setup gl s).ret ≠ 0 ↔
      (s.supports_viewport_array = true ∧
        (build_shader "Scene" (scene_vert_src 1) scene_frag_src (gl.scene 1)).prog = 0) ∨
      (build_shader "Scene" (scene_vert_src 0) scene_frag_src (gl.scene 0)).prog = 0 := by
  unfold setup
  rw [va_and_then_ret_ne_zero, va_call_ret_ne_zero]
  unfold SetupResult.call_if
  cases s.supports_viewport_array
  · simp
  · simp only [ite_true, true_and]
    rw [va_call_ret_ne_zero]

theorem va_setup_fails_iff_call_fails (gl : GLEnv) (s : State) :
    (setup gl s).ret ≠ 0 ↔ ∃ x ∈ (setup gl s).calls, x.2 ≠ 0 := by
  have h0 := fun t => (va_call_ret_ne_zero gl 0 t).trans (va_call_calls_ne_zero gl 0 t).symm
  have h1 := (va_call_ret_ne_zero gl 1 s).trans (va_call_calls_ne_zero gl 1 s).symm
  unfold setup SetupResult.call_if SetupResult.and_then
  cases s.supports_viewport_array
  · simpa using h0 s
  · simp only [ite_true]
    by_cases hr : (SetupResult.call gl 1 s).ret = 0
    · have hn : ¬ ∃ x ∈ (SetupResult.call gl 1 s).calls, x.2 ≠ 0 := fun hx => h1.mpr hx hr
      simp only [hr, ne_eq, not_true_eq_false, ite_false, List.mem_append]
      refine (h0 _).trans ?_
      constructor
      · rintro ⟨x, hx, hx2⟩
        exact ⟨x, Or.inr hx, hx2⟩
      · rintro ⟨x, hx | hx, hx2⟩
        · exact absurd ⟨x, hx, hx2⟩ hn
        · exact ⟨x, hx, hx2⟩
    · simp only [ne_eq, hr, not_false_eq_true, ite_true, true_iff]
      exact h1.mp hr

theorem va_setup_calls_in_order (gl : GLEnv) (s : State) :
    (setup gl s).calls.map Prod.fst <+:
      (if s.supports_viewport_array then [1] else []) ++ [0] := by
  unfold setup SetupResult.call_if SetupResult.and_then
  cases s.supports_viewport_array
  · simp [SetupResult.call]
  · simp only [ite_true]
    split_ifs <;> simp [SetupResult.call]

end ViewportArray

/-- C1. In both programs `setup` returns nonzero exactly when a setup step
fails. For `multiview.c`: nonzero iff some framebuffer of `setup_fbo` is
reported incomplete or one of the builds (the multiview versions of the clear
and scene shaders when `supports_multiview`, then clear 0, scene 0 and the
buffer shader) returns program 0; equivalently, iff one of the calls `setup`
actually made returned nonzero, and those calls are an initial part of that
list in that order. For `viewport_array.c`: nonzero iff one of the scene
shader builds (version 1 when `supports_viewport_array`, then version 0)
returns 0. When `setup` returns nonzero, `main` returns `EXIT_FAILURE` having
called only `checkExtensions` and `setup`, whatever events are pending. -/
theorem setup_fails_exactly_when_a_step_fails
    (gl : Multiview.GLEnv) (s : Multiview.State)
    (vgl : ViewportArray.GLEnv) (vs : ViewportArray.State) :
    (((Multiview.setup gl s).ret ≠ 0 ↔
        (∃ i, i < (if s.supports_multiview then 3 else 2) ∧
          gl.framebuffer_status i ≠ GL_FRAMEBUFFER_COMPLETE) ∨
        (s.supports_multiview = true ∧
          (Multiview.build_shader "Clear" (Multiview.clear_vert_src 1)
            Multiview.clear_frag_src (gl.clear 1)).prog = 0) ∨
        (s.supports_multiview = true ∧
          (Multiview.build_shader "Scene" (Multiview.scene_vert_src 1)
            Multiview.scene_frag_src (gl.scene 1)).prog = 0) ∨
        (Multiview.build_shader "Clear" (Multiview.clear_vert_src 0)
          Multiview.clear_frag_src (gl.clear 0)).prog = 0 ∨
        (Multiview.build_shader "Scene" (Multiview.scene_vert_src 0)
          Multiview.scene_frag_src (gl.scene 0)).prog = 0 ∨
        (Multiview.build_shader "Buffer" Multiview.buf_vert_src
          Multiview.buf_frag_src gl.buf).prog = 0) ∧
      ((Multiview.setup gl s).ret ≠ 0 ↔ ∃ x ∈ (Multiview.setup gl s).calls, x.2 ≠ 0) ∧
      ((Multiview.setup gl s).calls.map Prod.fst <+:
        [Multiview.SetupCall.setup_fbo] ++
        (if s.supports_multiview then
          [Multiview.SetupCall.setup_clear_shader 1,
            Multiview.SetupCall.setup_scene_shader 1] else []) ++
        [Multiview.SetupCall.setup_clear_shader 0,
          Multiview.SetupCall.setup_scene_shader 0,
          Multiview.SetupCall.setup_buf_shader]) ∧
      (∀ stdout polls,
        Multiview.checkExtensions gl Multiview.State.init = some (s, stdout) →
        (Multiview.setup gl s).ret ≠ 0 →
        Multiview.main gl polls =
          some ⟨(Multiview.setup gl s).state,
            [.checkExtensions stdout, .setup (Multiview.setup gl s).stderr],
            some EXIT_FAILURE⟩)) ∧
    (((ViewportArray.setup vgl vs).ret ≠ 0 ↔
        (vs.supports_viewport_array = true ∧
          (ViewportArray.build_shader "Scene" (ViewportArray.scene_vert_src 1)
            ViewportArray.scene_frag_src (vgl.scene 1)).prog = 0) ∨
        (ViewportArray.build_shader "Scene" (ViewportArray.scene_vert_src 0)
          ViewportArray.scene_frag_src (vgl.scene 0)).prog = 0) ∧
      ((ViewportArray.setup vgl vs).ret ≠ 0 ↔
        ∃ x ∈ (ViewportArray.setup vgl vs).calls, x.2 ≠ 0) ∧
      ((ViewportArray.setup vgl vs).calls.map Prod.fst <+:
        (if vs.supports_viewport_array then [1] else []) ++ [0]) ∧
      (∀ stdout polls,
        ViewportArray.checkExtensions vgl ViewportArray.State.init = some (vs, stdout) →
        (ViewportArray.setup vgl vs).ret ≠ 0 →
        ViewportArray.main vgl polls =
          some ⟨(ViewportArray.setup vgl vs).state,
            [.checkExtensions stdout, .setup (ViewportArray.setup vgl vs).stderr],
            some EXIT_FAILURE⟩)) := by
  refine ⟨⟨Multiview.mv_setup_ret_ne_zero gl s, Multiview.mv_setup_fails_iff_call_fails gl s,
    Multiview.mv_setup_calls_in_order gl s, ?_⟩,
    ⟨ViewportArray.va_setup_ret_ne_zero vgl vs, ViewportArray.va_setup_fails_iff_call_fails vgl vs,
      ViewportArray.va_setup_calls_in_order vgl vs, ?_⟩⟩
  · intro stdout polls hce hret
    unfold Multiview.main
    rw [hce]
    simp only [hret, ite_true, ne_eq, not_false_eq_true]
  · intro stdout polls hce hret
    unfold ViewportArray.main
    rw [hce]
    simp only [hret, ite_true, ne_eq, not_false_eq_true]

theorem Multiview.mv_checkExtensions_sample :
    Multiview.checkExtensions Multiview.sample_gl Multiview.State.init =
      some (Multiview.sample_state, ["GL_OVR_multiview is supported and ENABLED\n"]) := by
  simp [Multiview.checkExtensions, Multiview.checkExtensions_loop, Multiview.sample_gl,
    Multiview.sample_state, to_unsigned, strcmp, Multiview.State.init]

theorem ViewportArray.va_checkExtensions_sample :
    ViewportArray.checkExtensions ViewportArray.sample_gl ViewportArray.State.init =
      some (ViewportArray.sample_state,
        ["GL_ARB_shader_viewport_layer_array is supported and ENABLED\n"]) := by
  simp [ViewportArray.checkExtensions, ViewportArray.checkExtensions_loop,
    ViewportArray.sample_gl, ViewportArray.sample_state, to_unsigned, strcmp,
    ViewportArray.State.init]

/-- C1, at a driver whose buffer shader (for `multiview.c`) or scene shader 0
(for `viewport_array.c`) fails to compile: `main` returns `EXIT_FAILURE` even
though a quit event is pending. -/
theorem setup_fails_exactly_when_a_step_fails_witness :
    (Multiview.main { Multiview.sample_gl with buf := ShaderGL.bad_fragment }
        [some quit_event]).map Multiview.MainResult.status = some (some EXIT_FAILURE) ∧
    (ViewportArray.main { ViewportArray.sample_gl with scene := fun _ => ShaderGL.bad_vertex }
        [some quit_event]).map ViewportArray.MainResult.status = some (some EXIT_FAILURE) := by
  have h := setup_fails_exactly_when_a_step_fails
    { Multiview.sample_gl with buf := ShaderGL.bad_fragment } Multiview.sample_state
    { ViewportArray.sample_gl with scene := fun _ => ShaderGL.bad_vertex }
    ViewportArray.sample_state
  constructor
  · rw [h.1.2.2.2 _ [some quit_event] Multiview.mv_checkExtensions_sample
      (h.1.1.mpr (Or.inr (Or.inr (Or.inr (Or.inr (Or.inr (by decide)))))))]
    rfl
  · rw [h.2.2.2.2 _ [some quit_event] ViewportArray.va_checkExtensions_sample
      (h.2.1.mpr (Or.inr (by decide)))]
    rfl

/-! ## Compile failures (C2) -/

theorem vertex_line_split (name log : String) :
    name ++ " vertex shader compilation failed: " ++ log ++ "\n" =
      (name ++ " ") ++ "vertex" ++ (" shader compilation failed: " ++ log ++ "\n") := by
  have h : " vertex shader compilation failed: " =
      " " ++ ("vertex" ++ " shader compilation failed: ") := by
    decide
  rw [h]
  simp only [String.append_assoc]

theorem fragment_line_split (name log : String) :
    name ++ " fragment shader compilation failed: " ++ log ++ "\n" =
      (name ++ " ") ++ "fragment" ++ (" shader compilation failed: " ++ log ++ "\n") := by
  have h : " fragment shader compilation failed: " =
      " " ++ ("fragment" ++ " shader compilation failed: ") := by
    decide
  rw [h]
  simp only [String.append_assoc]

theorem line_begins_with_name (name a b c : String) :
    name ++ a ++ b ++ c = "" ++ name ++ (a ++ b ++ c) := by
  simp [String.append_assoc]

/-- What C2 says of one result of `build_shader`: program 0 and a single line
on `stderr` that contains the shader name and the failing stage. -/
theorem mv_compile_failure (name vert_src frag_src : String) (o : ShaderGL)
    (h : o.vert_status = 0 ∨ (o.vert_status ≠ 0 ∧ o.frag_status = 0)) :
    (Multiview.build_shader name vert_src frag_src o).prog = 0 ∧
      ∃ line, (Multiview.build_shader name vert_src frag_src o).stderr = [line] ∧
        (∃ pre post, line = pre ++ name ++ post) ∧
        (∃ pre post, line =
          pre ++ (if o.vert_status = 0 then "vertex" else "fragment") ++ post) := by
  unfold Multiview.build_shader
  rcases h with hv | ⟨hv, hf⟩
  · simp only [hv, ite_true]
    exact ⟨trivial, _, rfl, ⟨"", _, line_begins_with_name name _ _ _⟩,
      ⟨_, _, vertex_line_split name o.vert_log⟩⟩
  · simp only [hv, hf, ite_true, ite_false]
    exact ⟨trivial, _, rfl, ⟨"", _, line_begins_with_name name _ _ _⟩,
      ⟨_, _, fragment_line_split name o.frag_log⟩⟩

theorem va_build_shader_eq (name vert_src frag_src : String) (o : ShaderGL) :
    ViewportArray.build_shader name vert_src frag_src o =
      Multiview.build_shader name vert_src frag_src o := rfl

/-- C2. When the vertex shader does not compile, or it does and the fragment
shader does not, `build_shader` (of either program) returns 0 and writes one
line to `stderr` that contains the name passed in and the failing stage
(`vertex` or `fragment`); each `setup_*_shader` whose build has this outcome
returns nonzero, with that line naming `Clear`, `Scene` or `Buffer`; and a
`main` that has such a build among those `setup` makes returns
`EXIT_FAILURE`. -/
theorem compile_failure_is_diagnosed (name vert_src frag_src : String) (o : ShaderGL)
    (h : o.vert_status = 0 ∨ (o.vert_status ≠ 0 ∧ o.frag_status = 0)) :
    (∀ b ∈ [Multiview.build_shader name vert_src frag_src o,
          ViewportArray.build_shader name vert_src frag_src o],
        b.prog = 0 ∧
        ∃ line, b.stderr = [line] ∧ (∃ pre post, line = pre ++ name ++ post) ∧
          (∃ pre post, line =
            pre ++ (if o.vert_status = 0 then "vertex" else "fragment") ++ post)) ∧
    (∀ (gl : Multiview.GLEnv) (s : Multiview.State) (v : Nat),
        (gl.clear v = o →
          (Multiview.setup_clear_shader gl v s).2.1 ≠ 0 ∧
          ∃ line, (Multiview.setup_clear_shader gl v s).2.2 = [line] ∧
            (∃ pre post, line = pre ++ "Clear" ++ post) ∧
            (∃ pre post, line =
              pre ++ (if o.vert_status = 0 then "vertex" else "fragment") ++ post)) ∧
        (gl.scene v = o →
          (Multiview.setup_scene_shader gl v s).2.1 ≠ 0 ∧
          ∃ line, (Multiview.setup_scene_shader gl v s).2.2 = [line] ∧
            (∃ pre post, line = pre ++ "Scene" ++ post) ∧
            (∃ pre post, line =
              pre ++ (if o.vert_status = 0 then "vertex" else "fragment") ++ post)) ∧
        (gl.buf = o →
          (Multiview.setup_buf_shader gl s).2.1 ≠ 0 ∧
          ∃ line, (Multiview.setup_buf_shader gl s).2.2 = [line] ∧
            (∃ pre post, line = pre ++ "Buffer" ++ post) ∧
            (∃ pre post, line =
              pre ++ (if o.vert_status = 0 then "vertex" else "fragment") ++ post))) ∧
    (∀ (gl : ViewportArray.GLEnv) (s : ViewportArray.State) (v : Nat),
        gl.scene v = o →
          (ViewportArray.setup_scene_shader gl v s).2.1 ≠ 0 ∧
          ∃ line, (ViewportArray.setup_scene_shader gl v s).2.2 = [line] ∧
            (∃ pre post, line = pre ++ "Scene" ++ post) ∧
            (∃ pre post, line =
              pre ++ (if o.vert_status = 0 then "vertex" else "fragment") ++ post)) ∧
    (∀ (gl : Multiview.GLEnv) (s : Multiview.State) stdout polls,
        Multiview.checkExtensions gl Multiview.State.init = some (s, stdout) →
        (gl.clear 0 = o ∨ gl.scene 0 = o ∨ gl.buf = o ∨
          (s.supports_multiview = true ∧ (gl.clear 1 = o ∨ gl.scene 1 = o))) →
        ∃ r, Multiview.main gl polls = some r ∧ r.status = some EXIT_FAILURE) ∧
    (∀ (gl : ViewportArray.GLEnv) (s : ViewportArray.State) stdout polls,
        ViewportArray.checkExtensions gl ViewportArray.State.init = some (s, stdout) →
        (gl.scene 0 = o ∨ (s.supports_viewport_array = true ∧ gl.scene 1 = o)) →
        ∃ r, ViewportArray.main gl polls = some r ∧ r.status = some EXIT_FAILURE) := by
  have hb := fun n v f => mv_compile_failure n v f o h
  refine ⟨?_, ?_, ?_, ?_, ?_⟩
  · intro b hmem
    simp only [List.mem_cons, List.mem_singleton, List.not_mem_nil, or_false,
      va_build_shader_eq, or_self] at hmem
    subst hmem
    exact hb _ _ _
  · intro gl s v
    refine ⟨?_, ?_, ?_⟩
    · intro ho
      refine ⟨(Multiview.mv_setup_clear_shader_ret gl v s).mpr (ho ▸ (hb _ _ _).1), ?_⟩
      simpa only [Multiview.setup_clear_shader, ho] using (hb "Clear" _ _).2
    · intro ho
      refine ⟨(Multiview.mv_setup_scene_shader_ret gl v s).mpr (ho ▸ (hb _ _ _).1), ?_⟩
      simpa only [Multiview.setup_scene_shader, ho] using (hb "Scene" _ _).2
    · intro ho
      refine ⟨(Multiview.mv_setup_buf_shader_ret gl s).mpr (ho ▸ (hb _ _ _).1), ?_⟩
      simpa only [Multiview.setup_buf_shader, ho] using (hb "Buffer" _ _).2
  · intro gl s v ho
    refine ⟨(ViewportArray.va_setup_scene_shader_ret gl v s).mpr ?_, ?_⟩
    · rw [ho]
      exact (hb _ _ _).1
    · simpa only [ViewportArray.setup_scene_shader, ho] using (hb "Scene" _ _).2
  · intro gl s stdout polls hce hfail
    have hret : (Multiview.setup gl s).ret ≠ 0 := by
      rw [Multiview.mv_setup_ret_ne_zero]
      rcases hfail with ho | ho | ho | ⟨hs, ho | ho⟩
      · exact Or.inr (Or.inr (Or.inr (Or.inl (ho ▸ (hb _ _ _).1))))
      · exact Or.inr (Or.inr (Or.inr (Or.inr (Or.inl (ho ▸ (hb _ _ _).1)))))
      · exact Or.inr (Or.inr (Or.inr (Or.inr (Or.inr (ho ▸ (hb _ _ _).1)))))
      · exact Or.inr (Or.inl ⟨hs, ho ▸ (hb _ _ _).1⟩)
      · exact Or.inr (Or.inr (Or.inl ⟨hs, ho ▸ (hb _ _ _).1⟩))
    unfold Multiview.main
    rw [hce]
    simp only [hret, ite_true, ne_eq, not_false_eq_true]
    exact ⟨_, rfl, rfl⟩
  · intro gl s stdout polls hce hfail
    have hret : (ViewportArray.setup gl s).ret ≠ 0 := by
      rw [ViewportArray.va_setup_ret_ne_zero]
      rcases hfail with ho | ⟨hs, ho⟩
      · refine Or.inr ?_
        rw [ho]
        exact (hb _ _ _).1
      · refine Or.inl ⟨hs, ?_⟩
        rw [ho]
        exact (hb _ _ _).1
    unfold ViewportArray.main
    rw [hce]
    simp only [hret, ite_true, ne_eq, not_false_eq_true]
    exact ⟨_, rfl, rfl⟩

/-- C2, at a scene shader whose fragment stage does not compile: the line
written, and the exit status of both programs when it is scene shader 0. -/
theorem compile_failure_is_diagnosed_witness :
    (Multiview.build_shader "Scene" (Multiview.scene_vert_src 0) Multiview.scene_frag_src
        ShaderGL.bad_fragment).stderr =
      ["Scene fragment shader compilation failed: 0:1: error\n"] ∧
    (∃ r, Multiview.main { Multiview.sample_gl with scene := fun _ => ShaderGL.bad_fragment }
        [some (key_down SDLK_d)] = some r ∧ r.status = some EXIT_FAILURE) ∧
    (∃ r, ViewportArray.main
        { ViewportArray.sample_gl with scene := fun _ => ShaderGL.bad_fragment }
        [some (key_down SDLK_v)] = some r ∧ r.status = some EXIT_FAILURE) := by
  have h := compile_failure_is_diagnosed "Scene" (Multiview.scene_vert_src 0)
    Multiview.scene_frag_src ShaderGL.bad_fragment (Or.inr ⟨by decide, by decide⟩)
  refine ⟨by decide, ?_, ?_⟩
  · exact h.2.2.2.1 { Multiview.sample_gl with scene := fun _ => ShaderGL.bad_fragment }
      Multiview.sample_state _ _ Multiview.mv_checkExtensions_sample (Or.inr (Or.inl rfl))
  · exact h.2.2.2.2 { ViewportArray.sample_gl with scene := fun _ => ShaderGL.bad_fragment }
      ViewportArray.sample_state _ _ ViewportArray.va_checkExtensions_sample (Or.inl rfl)

/-! ## The passes of `render` in `multiview.c` (C5) -/

namespace Multiview

/-- The function `render_scene` assigns at most `scene_list` (and the count of
`glGenLists` calls). -/
theorem mv_render_scene_state (gl : GLEnv) (s : State) :
    (render_scene gl s).1 =
      { s with
        scene_list := (render_scene gl s).1.scene_list
        gen_lists_calls := (render_scene gl s).1.gen_lists_calls } := by
  unfold render_scene
  split_ifs <;> rfl

theorem mv_render_scene_fields (gl : GLEnv) (s : State) :
    (render_scene gl s).1.fbo = s.fbo ∧
      (render_scene gl s).1.clear_prog = s.clear_prog ∧
      (render_scene gl s).1.scene_prog = s.scene_prog ∧
      (render_scene gl s).1.buf_prog = s.buf_prog := by
  unfold render_scene
  split_ifs <;> exact ⟨rfl, rfl, rfl, rfl⟩

theorem mv_render_scene_multiview (gl : GLEnv) (s : State) :
    (render_scene gl s).1.multiview = s.multiview := by
  rw [mv_render_scene_state]

theorem mv_render_loop_done (gl : GLEnv) (i : Nat) (s : State)
    (h : ¬ i < (if s.multiview then 3 else 2)) : render_loop gl i s = (s, []) := by
  rw [render_loop]
  simp only [h, dite_false]

theorem mv_render_loop_pass (gl : GLEnv) (i : Nat) (s : State)
    (h : i < (if s.multiview then 3 else 2)) :
    render_loop gl i s =
      ((render_loop gl (i + 1) (render_scene gl s).1).1,
        [ .glBindFramebuffer (.fbo i) (s.fbo.getD i 0),
          .glUseProgram (.clear_prog (if s.multiview then 1 else 0))
            (s.clear_prog.getD (if s.multiview then 1 else 0) 0) ] ++
        clear ++
        [ .glUseProgram (.scene_prog (if s.multiview then 1 else 0))
            (s.scene_prog.getD (if s.multiview then 1 else 0) 0) ] ++
        (render_scene gl s).2 ++ (render_loop gl (i + 1) (render_scene gl s).1).2) := by
  rw [render_loop]
  simp only [h, dite_true]

theorem mv_render_multiview (gl : GLEnv) (s : State) (hm : s.multiview = true) :
    render gl s =
      ((render_scene gl s).1,
        [ .glBindFramebuffer (.fbo 2) (s.fbo.getD 2 0),
          .glUseProgram (.clear_prog 1) (s.clear_prog.getD 1 0) ] ++
        clear ++
        [ .glUseProgram (.scene_prog 1) (s.scene_prog.getD 1 0) ] ++
        (render_scene gl s).2 ++
        [ .glBindFramebuffer .zero 0 ] ++ render_buf (render_scene gl s).1 ++
        [ .SDL_GL_SwapWindow ]) := by
  have h3 : render_loop gl 3 (render_scene gl s).1 = ((render_scene gl s).1, []) :=
    mv_render_loop_done gl 3 _ (by rw [mv_render_scene_multiview, hm]; decide)
  unfold render
  simp only [hm, ite_true]
  rw [mv_render_loop_pass gl 2 s (by rw [hm]; decide), h3]
  simp only [hm, ite_true, List.append_nil]

theorem mv_render_two_pass (gl : GLEnv) (s : State) (hm : s.multiview = false) :
    render gl s =
      ((render_scene gl (render_scene gl s).1).1,
        [ .glBindFramebuffer (.fbo 0) (s.fbo.getD 0 0),
          .glUseProgram (.clear_prog 0) (s.clear_prog.getD 0 0) ] ++
        clear ++
        [ .glUseProgram (.scene_prog 0) (s.scene_prog.getD 0 0) ] ++
        (render_scene gl s).2 ++
        ([ .glBindFramebuffer (.fbo 1) ((render_scene gl s).1.fbo.getD 1 0),
          .glUseProgram (.clear_prog 0) ((render_scene gl s).1.clear_prog.getD 0 0) ] ++
        clear ++
        [ .glUseProgram (.scene_prog 0) ((render_scene gl s).1.scene_prog.getD 0 0) ] ++
        (render_scene gl (render_scene gl s).1).2) ++
        [ .glBindFramebuffer .zero 0 ] ++
        render_buf (render_scene gl (render_scene gl s).1).1 ++
        [ .SDL_GL_SwapWindow ]) := by
  have hm1 : (render_scene gl s).1.multiview = false := by
    rw [mv_render_scene_multiview, hm]
  have hm2 : (render_scene gl (render_scene gl s).1).1.multiview = false := by
    rw [mv_render_scene_multiview, hm1]
  have h2 : render_loop gl 2 (render_scene gl (render_scene gl s).1).1 =
      ((render_scene gl (render_scene gl s).1).1, []) :=
    mv_render_loop_done gl 2 _ (by rw [hm2]; decide)
  unfold render
  simp only [hm, ite_false, Bool.false_eq_true]
  rw [mv_render_loop_pass gl 0 s (by rw [hm]; decide),
    mv_render_loop_pass gl (0 + 1) _ (by rw [hm1]; decide), h2]
  simp only [hm, hm1, ite_false, Bool.false_eq_true, List.append_nil, List.append_assoc]

theorem mv_render_scene_binds_nothing (gl : GLEnv) (s : State) :
    (render_scene gl s).2.filterMap Call.framebuffer? = [] ∧
      (render_scene gl s).2.filterMap Call.program? = [] := by
  unfold render_scene
  split_ifs <;> exact ⟨rfl, rfl⟩

theorem mv_render_buf_binds (s : State) :
    (render_buf s).filterMap Call.framebuffer? = [] ∧
      (render_buf s).filterMap Call.program? = [(Program.buf_prog, s.buf_prog)] :=
  ⟨rfl, rfl⟩

end Multiview

/-- The command stream of `render`, and the framebuffers it binds and the
programs it uses, for each value of `multiview`. -/
theorem mv_render_passes (gl : Multiview.GLEnv) (s : Multiview.State) :
    (s.multiview = true →
      (Multiview.render gl s).2 =
        [ .glBindFramebuffer (.fbo 2) (s.fbo.getD 2 0),
          .glUseProgram (.clear_prog 1) (s.clear_prog.getD 1 0) ] ++
        Multiview.clear ++
        [ .glUseProgram (.scene_prog 1) (s.scene_prog.getD 1 0) ] ++
        (Multiview.render_scene gl s).2 ++
        [ .glBindFramebuffer .zero 0 ] ++
        Multiview.render_buf (Multiview.render gl s).1 ++
        [ .SDL_GL_SwapWindow ] ∧
      (Multiview.render gl s).1 = (Multiview.render_scene gl s).1 ∧
      (Multiview.render gl s).2.filterMap Multiview.Call.framebuffer? = [.fbo 2, .zero] ∧
      (Multiview.render gl s).2.filterMap Multiview.Call.program? =
        [ (.clear_prog 1, s.clear_prog.getD 1 0), (.scene_prog 1, s.scene_prog.getD 1 0),
          (.buf_prog, s.buf_prog) ]) ∧
    (s.multiview = false →
      (Multiview.render gl s).2 =
        ([ .glBindFramebuffer (.fbo 0) (s.fbo.getD 0 0),
          .glUseProgram (.clear_prog 0) (s.clear_prog.getD 0 0) ] ++
        Multiview.clear ++
        [ .glUseProgram (.scene_prog 0) (s.scene_prog.getD 0 0) ] ++
        (Multiview.render_scene gl s).2) ++
        ([ .glBindFramebuffer (.fbo 1) (s.fbo.getD 1 0),
          .glUseProgram (.clear_prog 0) (s.clear_prog.getD 0 0) ] ++
        Multiview.clear ++
        [ .glUseProgram (.scene_prog 0) (s.scene_prog.getD 0 0) ] ++
        (Multiview.render_scene gl (Multiview.render_scene gl s).1).2) ++
        [ .glBindFramebuffer .zero 0 ] ++
        Multiview.render_buf (Multiview.render gl s).1 ++
        [ .SDL_GL_SwapWindow ] ∧
      (Multiview.render gl s).1 =
        (Multiview.render_scene gl (Multiview.render_scene gl s).1).1 ∧
      (Multiview.render gl s).2.filterMap Multiview.Call.framebuffer? =
        [.fbo 0, .fbo 1, .zero] ∧
      (Multiview.render gl s).2.filterMap Multiview.Call.program? =
        [ (.clear_prog 0, s.clear_prog.getD 0 0), (.scene_prog 0, s.scene_prog.getD 0 0),
          (.clear_prog 0, s.clear_prog.getD 0 0), (.scene_prog 0, s.scene_prog.getD 0 0),
          (.buf_prog, s.buf_prog) ]) := by
  have hf := Multiview.mv_render_scene_fields gl
  constructor
  · intro hm
    rw [Multiview.mv_render_multiview gl s hm]
    refine ⟨rfl, rfl, ?_, ?_⟩
    · simp only [List.filterMap_append, (Multiview.mv_render_scene_binds_nothing gl s).1,
        (Multiview.mv_render_buf_binds _).1]
      rfl
    · simp only [List.filterMap_append, (Multiview.mv_render_scene_binds_nothing gl s).2,
        (Multiview.mv_render_buf_binds _).2, (hf _).2.2.2]
      rfl
  · intro hm
    rw [Multiview.mv_render_two_pass gl s hm]
    refine ⟨?_, rfl, ?_, ?_⟩
    · simp only [(hf _).1, (hf _).2.1, (hf _).2.2.1, List.append_assoc]
    · simp only [List.filterMap_append, (Multiview.mv_render_scene_binds_nothing gl _).1,
        (Multiview.mv_render_buf_binds _).1]
      rfl
    · simp only [List.filterMap_append, (Multiview.mv_render_scene_binds_nothing gl _).2,
        (Multiview.mv_render_buf_binds _).2, (hf _).2.1, (hf _).2.2.1, (hf _).2.2.2]
      rfl

/-- C5. The passes of `render` in `multiview.c` are decided by `multiview`
alone. When it is true the loop body runs once: it binds `fbo[2]`, uses
`clear_prog[1]`, clears, uses `scene_prog[1]` and draws the scene. When it is
false the body runs twice, for `fbo[0]` and then `fbo[1]`, both times with
`clear_prog[0]` and `scene_prog[0]`, clearing before drawing the scene. In
both cases framebuffer 0 is then bound, `render_buf` runs once and the window
is swapped; no other framebuffer is bound and no other program used. -/
theorem render_passes_follow_multiview (gl : Multiview.GLEnv) (s : Multiview.State) :
    (s.multiview = true →
      (Multiview.render gl s).2 =
        [ .glBindFramebuffer (.fbo 2) (s.fbo.getD 2 0),
          .glUseProgram (.clear_prog 1) (s.clear_prog.getD 1 0) ] ++
        Multiview.clear ++
        [ .glUseProgram (.scene_prog 1) (s.scene_prog.getD 1 0) ] ++
        (Multiview.render_scene gl s).2 ++
        [ .glBindFramebuffer .zero 0 ] ++
        Multiview.render_buf (Multiview.render gl s).1 ++
        [ .SDL_GL_SwapWindow ] ∧
      (Multiview.render gl s).1 = (Multiview.render_scene gl s).1 ∧
      (Multiview.render gl s).2.filterMap Multiview.Call.framebuffer? = [.fbo 2, .zero] ∧
      (Multiview.render gl s).2.filterMap Multiview.Call.program? =
        [ (.clear_prog 1, s.clear_prog.getD 1 0), (.scene_prog 1, s.scene_prog.getD 1 0),
          (.buf_prog, s.buf_prog) ]) ∧
    (s.multiview = false →
      (Multiview.render gl s).2 =
        ([ .glBindFramebuffer (.fbo 0) (s.fbo.getD 0 0),
          .glUseProgram (.clear_prog 0) (s.clear_prog.getD 0 0) ] ++
        Multiview.clear ++
        [ .glUseProgram (.scene_prog 0) (s.scene_prog.getD 0 0) ] ++
        (Multiview.render_scene gl s).2) ++
        ([ .glBindFramebuffer (.fbo 1) (s.fbo.getD 1 0),
          .glUseProgram (.clear_prog 0) (s.clear_prog.getD 0 0) ] ++
        Multiview.clear ++
        [ .glUseProgram (.scene_prog 0) (s.scene_prog.getD 0 0) ] ++
        (Multiview.render_scene gl (Multiview.render_scene gl s).1).2) ++
        [ .glBindFramebuffer .zero 0 ] ++
        Multiview.render_buf (Multiview.render gl s).1 ++
        [ .SDL_GL_SwapWindow ] ∧
      (Multiview.render gl s).1 =
        (Multiview.render_scene gl (Multiview.render_scene gl s).1).1 ∧
      (Multiview.render gl s).2.filterMap Multiview.Call.framebuffer? =
        [.fbo 0, .fbo 1, .zero] ∧
      (Multiview.render gl s).2.filterMap Multiview.Call.program? =
        [ (.clear_prog 0, s.clear_prog.getD 0 0), (.scene_prog 0, s.scene_prog.getD 0 0),
          (.clear_prog 0, s.clear_prog.getD 0 0), (.scene_prog 0, s.scene_prog.getD 0 0),
          (.buf_prog, s.buf_prog) ]) :=
  mv_render_passes gl s

/-- C5, at a state with multiview on and at one with multiview off. -/
theorem render_passes_follow_multiview_witness :
    (Multiview.render Multiview.sample_gl Multiview.sample_state).2.filterMap
        Multiview.Call.framebuffer? = [.fbo 2, .zero] ∧
    (Multiview.render Multiview.sample_gl Multiview.State.init).2.filterMap
        Multiview.Call.framebuffer? = [.fbo 0, .fbo 1, .zero] :=
  ⟨((render_passes_follow_multiview Multiview.sample_gl Multiview.sample_state).1
      (by decide)).2.2.1,
    ((render_passes_follow_multiview Multiview.sample_gl Multiview.State.init).2
      (by decide)).2.2.1⟩

/-! ## Key presses (C3, C4, C7) -/

namespace Multiview

/-- The function `render` assigns at most `scene_list` (and the count of
`glGenLists` calls). -/
theorem mv_state_frame_trans (s s1 s2 : State)
    (h1 : s1 = { s with scene_list := s1.scene_list, gen_lists_calls := s1.gen_lists_calls })
    (h2 : s2 = { s1 with scene_list := s2.scene_list, gen_lists_calls := s2.gen_lists_calls }) :
    s2 = { s with scene_list := s2.scene_list, gen_lists_calls := s2.gen_lists_calls } := by
  cases s
  cases s1
  cases s2
  simp_all

theorem mv_render_state (gl : GLEnv) (s : State) :
    (render gl s).1 =
      { s with
        scene_list := (render gl s).1.scene_list
        gen_lists_calls := (render gl s).1.gen_lists_calls } := by
  have h1 := mv_render_scene_state gl s
  have h2 := mv_render_scene_state gl (render_scene gl s).1
  rcases Bool.eq_false_or_eq_true s.multiview with hm | hm
  · have hr : (render gl s).1 = (render_scene gl s).1 := by
      rw [mv_render_multiview gl s hm]
    rw [hr]
    exact h1
  · have hr : (render gl s).1 = (render_scene gl (render_scene gl s).1).1 := by
      rw [mv_render_two_pass gl s hm]
    rw [hr]
    exact mv_state_frame_trans _ _ _ h1 h2

/-- The body of the event loop for a press of the D key. -/
theorem mv_loop_body_d (gl : GLEnv) (s : State) (event : SDL_Event)
    (hdown : event.type = SDL_KEYDOWN) (hd : event.sym = SDLK_d) :
    loop_body gl s event =
      ((render gl { s with display_lists := !s.display_lists }).1,
        [ .updateWindowTitle (updateWindowTitle { s with display_lists := !s.display_lists }),
          .render (render gl { s with display_lists := !s.display_lists }).2 ],
        none) := by
  have h1 : SDL_KEYDOWN ≠ SDL_QUIT := by decide
  have h2 : SDL_KEYDOWN ≠ SDL_WINDOWEVENT := by decide
  unfold loop_body
  simp only [hdown, hd, h1, h2, ite_true, ite_false, false_and, List.append_nil]

/-- The body of the event loop for a press of the M key when multiview is
supported. -/
theorem mv_loop_body_m (gl : GLEnv) (s : State) (event : SDL_Event)
    (hs : s.supports_multiview = true)
    (hdown : event.type = SDL_KEYDOWN) (hm : event.sym = SDLK_m) :
    loop_body gl s event =
      ((render gl { s with multiview := !s.multiview }).1,
        [ .updateWindowTitle (updateWindowTitle { s with multiview := !s.multiview }),
          .render (render gl { s with multiview := !s.multiview }).2 ],
        none) := by
  have h1 : SDL_KEYDOWN ≠ SDL_QUIT := by decide
  have h2 : SDL_KEYDOWN ≠ SDL_WINDOWEVENT := by decide
  have h3 : SDLK_m ≠ SDLK_d := by decide
  unfold loop_body
  simp only [hdown, hm, hs, h1, h2, h3, ite_true, ite_false, false_and, List.append_nil,
    Bool.true_and, decide_True]

/-- The body of the event loop for a key press that toggles nothing. -/
theorem mv_loop_body_other_key (gl : GLEnv) (s : State) (event : SDL_Event)
    (hdown : event.type = SDL_KEYDOWN) (hd : event.sym ≠ SDLK_d)
    (hm : s.supports_multiview = false ∨ event.sym ≠ SDLK_m) :
    loop_body gl s event = (s, [], none) := by
  have h1 : SDL_KEYDOWN ≠ SDL_QUIT := by decide
  have h2 : SDL_KEYDOWN ≠ SDL_WINDOWEVENT := by decide
  have hc : (s.supports_multiview && decide (event.sym = SDLK_m)) = false := by
    rcases hm with hm | hm <;> simp [hm]
  unfold loop_body
  simp only [hdown, hd, hc, h1, h2, ite_true, ite_false, false_and, List.append_nil,
    Bool.false_eq_true]

end Multiview

namespace ViewportArray

/-- The body of the event loop for a press of the V key when the viewport
array is supported. -/
theorem va_loop_body_v (s : State) (event : SDL_Event)
    (hs : s.supports_viewport_array = true)
    (hdown : event.type = SDL_KEYDOWN) (hv : event.sym = SDLK_v) :
    loop_body s event =
      ({ s with viewport_array := !s.viewport_array },
        [ .updateWindowTitle (updateWindowTitle { s with viewport_array := !s.viewport_array }),
          .render (render { s with viewport_array := !s.viewport_array }) ],
        none) := by
  have h1 : SDL_KEYDOWN ≠ SDL_QUIT := by decide
  have h2 : SDL_KEYDOWN ≠ SDL_WINDOWEVENT := by decide
  unfold loop_body
  simp only [hdown, hv, hs, h1, h2, ite_true, ite_false, false_and, List.append_nil,
    Bool.true_and, decide_True]

/-- The body of the event loop for a key press that toggles nothing. -/
theorem va_loop_body_other_key (s : State) (event : SDL_Event)
    (hdown : event.type = SDL_KEYDOWN)
    (hv : s.supports_viewport_array = false ∨ event.sym ≠ SDLK_v) :
    loop_body s event = (s, [], none) := by
  have h1 : SDL_KEYDOWN ≠ SDL_QUIT := by decide
  have h2 : SDL_KEYDOWN ≠ SDL_WINDOWEVENT := by decide
  have hc : (s.supports_viewport_array && decide (event.sym = SDLK_v)) = false := by
    rcases hv with hv | hv <;> simp [hv]
  unfold loop_body
  simp only [hdown, hc, h1, h2, ite_true, ite_false, false_and, List.append_nil,
    Bool.false_eq_true]

end ViewportArray

/-- C3. Toggling an unsupported feature does nothing. In `multiview.c`, when
`supports_multiview` is false, the loop body for a key-down event of the M key
leaves every variable (so `multiview`, `display_lists` and `scene_list`)
unchanged, makes no call (no title update, no render) and does not return
from `main`; in `viewport_array.c` the same holds for the V key when
`supports_viewport_array` is false. -/
theorem toggling_unsupported_feature_is_noop
    (gl : Multiview.GLEnv) (s : Multiview.State) (vs : ViewportArray.State)
    (event : SDL_Event) (hdown : event.type = SDL_KEYDOWN) :
    (s.supports_multiview = false → event.sym = SDLK_m →
      Multiview.loop_body gl s event = (s, [], none)) ∧
    (vs.supports_viewport_array = false → event.sym = SDLK_v →
      ViewportArray.loop_body vs event = (vs, [], none)) := by
  constructor
  · intro hs hm
    exact Multiview.mv_loop_body_other_key gl s event hdown (by rw [hm]; decide) (Or.inl hs)
  · intro hs _
    exact ViewportArray.va_loop_body_other_key vs event hdown (Or.inl hs)

/-- C3, at the initial states, where neither feature is supported. -/
theorem toggling_unsupported_feature_is_noop_witness :
    Multiview.loop_body Multiview.sample_gl Multiview.State.init (key_down SDLK_m) =
      (Multiview.State.init, [], none) ∧
    ViewportArray.loop_body ViewportArray.State.init (key_down SDLK_v) =
      (ViewportArray.State.init, [], none) :=
  ⟨(toggling_unsupported_feature_is_noop Multiview.sample_gl Multiview.State.init
      ViewportArray.State.init (key_down SDLK_m) rfl).1 rfl rfl,
    (toggling_unsupported_feature_is_noop Multiview.sample_gl Multiview.State.init
      ViewportArray.State.init (key_down SDLK_v) rfl).2 rfl rfl⟩

/-- C4. Toggling a supported feature flips the mode and renders once. In
`multiview.c`, when `supports_multiview` is true, the loop body for a key-down
event of the M key negates `multiview`, leaves `display_lists` and
`supports_multiview` unchanged, and makes exactly two calls: a title update
showing the new mode, then one render in the new mode. In `viewport_array.c`
the same holds for the V key and `viewport_array`. -/
theorem toggling_supported_feature_flips_and_renders
    (gl : Multiview.GLEnv) (s : Multiview.State) (vs : ViewportArray.State)
    (event : SDL_Event) (hdown : event.type = SDL_KEYDOWN) :
    (s.supports_multiview = true → event.sym = SDLK_m →
      (Multiview.loop_body gl s event).1.multiview = !s.multiview ∧
      (Multiview.loop_body gl s event).1.display_lists = s.display_lists ∧
      (Multiview.loop_body gl s event).1.supports_multiview = s.supports_multiview ∧
      (Multiview.loop_body gl s event).1 =
        (Multiview.render gl { s with multiview := !s.multiview }).1 ∧
      (Multiview.loop_body gl s event).2.1 =
        [ .updateWindowTitle
            (Multiview.updateWindowTitle { s with multiview := !s.multiview }),
          .render (Multiview.render gl { s with multiview := !s.multiview }).2 ] ∧
      (Multiview.loop_body gl s event).2.2 = none) ∧
    (vs.supports_viewport_array = true → event.sym = SDLK_v →
      (ViewportArray.loop_body vs event).1 =
        { vs with viewport_array := !vs.viewport_array } ∧
      (ViewportArray.loop_body vs event).2.1 =
        [ .updateWindowTitle
            (ViewportArray.updateWindowTitle { vs with viewport_array := !vs.viewport_array }),
          .render (ViewportArray.render { vs with viewport_array := !vs.viewport_array }) ] ∧
      (ViewportArray.loop_body vs event).2.2 = none) := by
  constructor
  · intro hs hm
    rw [Multiview.mv_loop_body_m gl s event hs hdown hm]
    have h := Multiview.mv_render_state gl { s with multiview := !s.multiview }
    refine ⟨?_, ?_, ?_, rfl, rfl, rfl⟩ <;> rw [h]
  · intro hs hv
    rw [ViewportArray.va_loop_body_v vs event hs hdown hv]
    exact ⟨rfl, rfl, rfl⟩

/-- C4, at the sample states, where both features are supported and on. -/
theorem toggling_supported_feature_flips_and_renders_witness :
    (Multiview.loop_body Multiview.sample_gl Multiview.sample_state
        (key_down SDLK_m)).1.multiview = false ∧
    (ViewportArray.loop_body ViewportArray.sample_state (key_down SDLK_v)).1.viewport_array =
      false := by
  have h1 := (toggling_supported_feature_flips_and_renders Multiview.sample_gl
    Multiview.sample_state ViewportArray.sample_state (key_down SDLK_m) rfl).1 rfl rfl
  have h2 := (toggling_supported_feature_flips_and_renders Multiview.sample_gl
    Multiview.sample_state ViewportArray.sample_state (key_down SDLK_v) rfl).2 rfl rfl
  exact ⟨h1.1, by rw [h2.1]; rfl⟩

/-- C7. In `multiview.c`, whether or not multiview is supported, the loop body
for a key-down event of the D key negates `display_lists`, leaves `multiview`
and `supports_multiview` unchanged, and makes exactly two calls: a title
update showing the new setting, then one render with the new setting. A
second D press restores the original `display_lists`. A key-down of a key
other than D and M changes no variable and makes no call. -/
theorem d_key_toggles_display_lists
    (gl : Multiview.GLEnv) (s : Multiview.State) (event : SDL_Event)
    (hdown : event.type = SDL_KEYDOWN) :
    (event.sym = SDLK_d →
      (Multiview.loop_body gl s event).1.display_lists = !s.display_lists ∧
      (Multiview.loop_body gl s event).1.multiview = s.multiview ∧
      (Multiview.loop_body gl s event).1.supports_multiview = s.supports_multiview ∧
      (Multiview.loop_body gl s event).1 =
        (Multiview.render gl { s with display_lists := !s.display_lists }).1 ∧
      (Multiview.loop_body gl s event).2.1 =
        [ .updateWindowTitle
            (Multiview.updateWindowTitle { s with display_lists := !s.display_lists }),
          .render (Multiview.render gl { s with display_lists := !s.display_lists }).2 ] ∧
      (Multiview.loop_body gl s event).2.2 = none ∧
      (Multiview.loop_body gl (Multiview.loop_body gl s event).1 event).1.display_lists =
        s.display_lists) ∧
    (event.sym ≠ SDLK_d → event.sym ≠ SDLK_m →
      Multiview.loop_body gl s event = (s, [], none)) := by
  constructor
  · intro hd
    have hfirst : (Multiview.loop_body gl s event).1.display_lists = !s.display_lists := by
      rw [Multiview.mv_loop_body_d gl s event hdown hd]
      show (Multiview.render gl _).1.display_lists = _
      rw [Multiview.mv_render_state]
    refine ⟨hfirst, ?_, ?_, ?_, ?_, ?_, ?_⟩
    · rw [Multiview.mv_loop_body_d gl s event hdown hd]
      show (Multiview.render gl _).1.multiview = _
      rw [Multiview.mv_render_state]
    · rw [Multiview.mv_loop_body_d gl s event hdown hd]
      show (Multiview.render gl _).1.supports_multiview = _
      rw [Multiview.mv_render_state]
    · rw [Multiview.mv_loop_body_d gl s event hdown hd]
    · rw [Multiview.mv_loop_body_d gl s event hdown hd]
    · rw [Multiview.mv_loop_body_d gl s event hdown hd]
    · rw [Multiview.mv_loop_body_d gl (Multiview.loop_body gl s event).1 event hdown hd]
      show (Multiview.render gl _).1.display_lists = _
      rw [Multiview.mv_render_state]
      show (!(Multiview.loop_body gl s event).1.display_lists) = _
      rw [hfirst, Bool.not_not]
  · intro hd hm
    exact Multiview.mv_loop_body_other_key gl s event hdown hd (Or.inr hm)

/-- C7, at the initial state: D switches display lists off, a second D
switches them on again, and the V key does nothing. -/
theorem d_key_toggles_display_lists_witness :
    (Multiview.loop_body Multiview.sample_gl Multiview.State.init
        (key_down SDLK_d)).1.display_lists = false ∧
    (Multiview.loop_body Multiview.sample_gl
        (Multiview.loop_body Multiview.sample_gl Multiview.State.init (key_down SDLK_d)).1
        (key_down SDLK_d)).1.display_lists = true ∧
    Multiview.loop_body Multiview.sample_gl Multiview.State.init (key_down SDLK_v) =
      (Multiview.State.init, [], none) := by
  have h := (d_key_toggles_display_lists Multiview.sample_gl Multiview.State.init
    (key_down SDLK_d) rfl).1 rfl
  exact ⟨h.1, h.2.2.2.2.2.2,
    (d_key_toggles_display_lists Multiview.sample_gl Multiview.State.init
      (key_down SDLK_v) rfl).2 (by decide) (by decide)⟩

/-! ## Capability detection (C6) -/

theorem strcmp_eq_zero_iff : ∀ (a b : List Char), strcmp a b = 0 ↔ a = b
  | [], [] => by simp [strcmp]
  | [], _ :: _ => by simp [strcmp]
  | _ :: _, [] => by simp [strcmp]
  | a :: as, b :: bs => by
    unfold strcmp
    by_cases hab : a = b
    · simp only [hab, ite_true, List.cons.injEq, true_and]
      exact strcmp_eq_zero_iff as bs
    · simp only [hab, ite_false, List.cons.injEq, false_and, iff_false]
      intro h
      apply hab
      have hn : a.toNat = b.toNat := by omega
      rw [← Char.ofNat_toNat a, ← Char.ofNat_toNat b, hn]

theorem strcmp_data_eq_zero_iff (a b : String) : strcmp a.data b.data = 0 ↔ a = b := by
  rw [strcmp_eq_zero_iff]
  constructor
  · intro h
    cases a
    cases b
    simp_all
  · intro h
    rw [h]

theorem to_unsigned_length (n : Int) (names : List String) (hn : n = names.length)
    (hint : names.length < 2 ^ 31) : to_unsigned n = names.length := by
  unfold to_unsigned
  subst hn
  omega

/-- The early-break scan of `multiview.c` decides membership from index `i`
on. -/
theorem mv_scan_from (target : String) (n : Int) (names : List String)
    (hu : to_unsigned n = names.length) (b : Bool) :
    ∀ (m i : Nat), names.length - i = m →
      Multiview.checkExtensions_loop target n names i b =
        some (decide (target ∈ names.drop i) || b) := by
  intro m
  induction m with
  | zero =>
    intro i hm
    rw [Multiview.checkExtensions_loop]
    have hi : ¬ i < to_unsigned n := by omega
    have hdrop : names.drop i = [] := List.drop_eq_nil_of_le (by omega)
    simp only [hi, dite_false, hdrop, List.not_mem_nil, decide_False, Bool.false_or]
  | succ m ih =>
    intro i hm
    have hlt : i < names.length := by omega
    rw [Multiview.checkExtensions_loop]
    have hi : i < to_unsigned n := by omega
    simp only [hi, dite_true, List.getElem?_eq_getElem hlt, List.drop_eq_getElem_cons hlt,
      List.mem_cons, strcmp_data_eq_zero_iff]
    by_cases heq : names[i] = target
    · simp [heq]
    · have hne : ¬ target = names[i] := fun h => heq h.symm
      simp only [heq, ite_false, hne, false_or]
      exact ih (i + 1) (by omega)

/-- The full scan of `viewport_array.c` decides membership from index `i`
on. -/
theorem va_scan_from (target : String) (n : Int) (names : List String)
    (hu : to_unsigned n = names.length) :
    ∀ (m i : Nat) (b : Bool), names.length - i = m →
      ViewportArray.checkExtensions_loop target n names i b =
        some (decide (target ∈ names.drop i) || b) := by
  intro m
  induction m with
  | zero =>
    intro i b hm
    rw [ViewportArray.checkExtensions_loop]
    have hi : ¬ i < to_unsigned n := by omega
    have hdrop : names.drop i = [] := List.drop_eq_nil_of_le (by omega)
    simp only [hi, dite_false, hdrop, List.not_mem_nil, decide_False, Bool.false_or]
  | succ m ih =>
    intro i b hm
    have hlt : i < names.length := by omega
    rw [ViewportArray.checkExtensions_loop]
    have hi : i < to_unsigned n := by omega
    simp only [hi, dite_true, List.getElem?_eq_getElem hlt, List.drop_eq_getElem_cons hlt,
      List.mem_cons, strcmp_data_eq_zero_iff]
    rw [ih (i + 1) _ (by omega)]
    by_cases heq : names[i] = target
    · simp [heq]
    · have hne : ¬ target = names[i] := fun h => heq h.symm
      simp only [heq, ite_false, hne, false_or]

/-- C6. Capability detection is exact membership. Starting from the initial
state, when `GL_NUM_EXTENSIONS` is the (non-negative, `int`) length of the
list of extension names, `checkExtensions` of `multiview.c` leaves
`supports_multiview` true iff some name equals `GL_OVR_multiview`, sets
`multiview` to the same value and changes nothing else; `checkExtensions` of
`viewport_array.c` does the same for `GL_ARB_shader_viewport_layer_array`.
The early-break scan and the full scan, given the same name to look for,
both compute membership of that name in the list. -/
theorem capability_detection_is_exact_membership
    (gl : Multiview.GLEnv) (vgl : ViewportArray.GLEnv)
    (hcount : gl.num_extensions = gl.extensions.length)
    (hint : gl.extensions.length < 2 ^ 31)
    (hvcount : vgl.num_extensions = vgl.extensions.length)
    (hvint : vgl.extensions.length < 2 ^ 31) :
    (∃ s stdout, Multiview.checkExtensions gl Multiview.State.init = some (s, stdout) ∧
      (s.supports_multiview = true ↔ ∃ name ∈ gl.extensions, name = "GL_OVR_multiview") ∧
      s.multiview = s.supports_multiview ∧
      s = { Multiview.State.init with
        supports_multiview := s.supports_multiview, multiview := s.multiview }) ∧
    (∃ s stdout,
      ViewportArray.checkExtensions vgl ViewportArray.State.init = some (s, stdout) ∧
      (s.supports_viewport_array = true ↔
        ∃ name ∈ vgl.extensions, name = "GL_ARB_shader_viewport_layer_array") ∧
      s.viewport_array = s.supports_viewport_array ∧
      s = { ViewportArray.State.init with
        supports_viewport_array := s.supports_viewport_array
        viewport_array := s.viewport_array }) ∧
    (∀ (target : String) (n : Int) (names : List String),
      n = names.length → names.length < 2 ^ 31 →
      Multiview.checkExtensions_loop target n names 0 false =
        some (decide (target ∈ names)) ∧
      ViewportArray.checkExtensions_loop target n names 0 false =
        some (decide (target ∈ names))) := by
  refine ⟨?_, ?_, ?_⟩
  · have h := mv_scan_from "GL_OVR_multiview" gl.num_extensions gl.extensions
      (to_unsigned_length _ _ hcount hint) false _ 0 rfl
    unfold Multiview.checkExtensions
    rw [show Multiview.State.init.supports_multiview = false from rfl, h]
    refine ⟨_, _, rfl, ?_, rfl, rfl⟩
    simp
  · have h := va_scan_from "GL_ARB_shader_viewport_layer_array" vgl.num_extensions
      vgl.extensions (to_unsigned_length _ _ hvcount hvint) _ 0 false rfl
    unfold ViewportArray.checkExtensions
    rw [show ViewportArray.State.init.supports_viewport_array = false from rfl, h]
    refine ⟨_, _, rfl, ?_, rfl, rfl⟩
    simp
  · intro target n names hn hlt
    have hu := to_unsigned_length n names hn hlt
    rw [mv_scan_from target n names hu false _ 0 rfl,
      va_scan_from target n names hu _ 0 false rfl]
    simp

/-- C6, at a driver that reports only names that have `GL_OVR_multiview` as a
proper beginning or end, and `GL_ARB_shader_viewport_layer_array` itself:
multiview is not detected, the viewport array is. -/
theorem capability_detection_is_exact_membership_witness :
    (∃ s stdout,
      Multiview.checkExtensions
        { Multiview.sample_gl with
          extensions := ["GL_OVR_multiview2", "XGL_OVR_multiview"] }
        Multiview.State.init = some (s, stdout) ∧
      s.supports_multiview = false ∧ s.multiview = false) ∧
    (∃ s stdout,
      ViewportArray.checkExtensions ViewportArray.sample_gl ViewportArray.State.init =
        some (s, stdout) ∧
      s.supports_viewport_array = true ∧ s.viewport_array = true) := by
  have h := capability_detection_is_exact_membership
    { Multiview.sample_gl with extensions := ["GL_OVR_multiview2", "XGL_OVR_multiview"] }
    ViewportArray.sample_gl rfl (by decide) rfl (by decide)
  obtain ⟨⟨s, out, h1, h2, h3, -⟩, ⟨vs, vout, h4, h5, h6, -⟩, -⟩ := h
  constructor
  · refine ⟨s, out, h1, ?_, ?_⟩
    · have hno : ¬ ∃ name ∈ ["GL_OVR_multiview2", "XGL_OVR_multiview"],
          name = "GL_OVR_multiview" := by
        decide
      cases hs : s.supports_multiview
      · rfl
      · exact absurd (h2.mp hs) hno
    · have hno : ¬ ∃ name ∈ ["GL_OVR_multiview2", "XGL_OVR_multiview"],
          name = "GL_OVR_multiview" := by
        decide
      rw [h3]
      cases hs : s.supports_multiview
      · rfl
      · exact absurd (h2.mp hs) hno
  · have hyes : vs.supports_viewport_array = true :=
      h5.mpr ⟨_, List.mem_cons_self _ _, rfl⟩
    exact ⟨vs, vout, h4, hyes, by rw [h6]; exact hyes⟩

/-! ## The event loop (C8) -/

namespace Multiview

/-- Only a quit event makes the loop body return from `main`. -/
theorem mv_loop_body_status (gl : GLEnv) (s : State) (event : SDL_Event) :
    (loop_body gl s event).2.2 =
      if event.type = SDL_QUIT then some EXIT_SUCCESS else none := by
  unfold loop_body
  split_ifs <;> rfl

theorem mv_loop_body_quit (gl : GLEnv) (s : State) (event : SDL_Event)
    (h : event.type = SDL_QUIT) :
    loop_body gl s event = (s, [.cleanup (cleanup s)], some EXIT_SUCCESS) := by
  unfold loop_body
  simp only [h, ite_true]

/-- Without a quit event the event loop handles the delivered events in order
and does not return. -/
theorem mv_event_loop_running (gl : GLEnv) :
    ∀ (polls : List (Option SDL_Event)) (s : State),
      (∀ e, some e ∈ polls → e.type ≠ SDL_QUIT) →
      event_loop gl s polls =
        ((handled_in_order gl s (polls.filterMap id)).1,
          (handled_in_order gl s (polls.filterMap id)).2, none)
  | [], s, _ => rfl
  | none :: polls, s, h => by
    rw [event_loop]
    simpa using mv_event_loop_running gl polls s
      (fun e he => h e (List.mem_cons_of_mem _ he))
  | some event :: polls, s, h => by
    have hne : event.type ≠ SDL_QUIT := h event (List.mem_cons_self _ _)
    have hst : (loop_body gl s event).2.2 = none := by
      rw [mv_loop_body_status]
      simp only [hne, ite_false]
    have ih := mv_event_loop_running gl polls (loop_body gl s event).1
      (fun e he => h e (List.mem_cons_of_mem _ he))
    rw [event_loop]
    simp only [hst, ih, List.filterMap_cons, id, handled_in_order]

/-- The first quit event ends the event loop: the events before it are handled
in order, then `cleanup` is called and `main` returns `EXIT_SUCCESS`; what
follows the quit event is not looked at. -/
theorem mv_event_loop_quit (gl : GLEnv) (quit : SDL_Event) (post : List (Option SDL_Event))
    (hquit : quit.type = SDL_QUIT) :
    ∀ (pre : List (Option SDL_Event)) (s : State),
      (∀ e, some e ∈ pre → e.type ≠ SDL_QUIT) →
      event_loop gl s (pre ++ some quit :: post) =
        ((handled_in_order gl s (pre.filterMap id)).1,
          (handled_in_order gl s (pre.filterMap id)).2 ++
            [.cleanup (cleanup (handled_in_order gl s (pre.filterMap id)).1)],
          some EXIT_SUCCESS)
  | [], s, _ => by
    simp only [List.nil_append, event_loop, mv_loop_body_quit gl s quit hquit,
      List.filterMap_nil, handled_in_order, List.nil_append]
  | none :: pre, s, h => by
    rw [List.cons_append, event_loop]
    simpa using mv_event_loop_quit gl quit post hquit pre s
      (fun e he => h e (List.mem_cons_of_mem _ he))
  | some event :: pre, s, h => by
    have hne : event.type ≠ SDL_QUIT := h event (List.mem_cons_self _ _)
    have hst : (loop_body gl s event).2.2 = none := by
      rw [mv_loop_body_status]
      simp only [hne, ite_false]
    have ih := mv_event_loop_quit gl quit post hquit pre (loop_body gl s event).1
      (fun e he => h e (List.mem_cons_of_mem _ he))
    rw [List.cons_append, event_loop]
    simp only [hst, ih, List.filterMap_cons, id, handled_in_order, List.append_assoc]

end Multiview

namespace ViewportArray

/-- Only a quit event makes the loop body return from `main`. -/
theorem va_loop_body_status (s : State) (event : SDL_Event) :
    (loop_body s event).2.2 =
      if event.type = SDL_QUIT then some EXIT_SUCCESS else none := by
  unfold loop_body
  split_ifs <;> rfl

theorem va_loop_body_quit (s : State) (event : SDL_Event) (h : event.type = SDL_QUIT) :
    loop_body s event = (s, [.cleanup (cleanup s)], some EXIT_SUCCESS) := by
  unfold loop_body
  simp only [h, ite_true]

/-- Without a quit event the event loop handles the delivered events in order
and does not return. -/
theorem va_event_loop_running :
    ∀ (polls : List (Option SDL_Event)) (s : State),
      (∀ e, some e ∈ polls → e.type ≠ SDL_QUIT) →
      event_loop s polls =
        ((handled_in_order s (polls.filterMap id)).1,
          (handled_in_order s (polls.filterMap id)).2, none)
  | [], s, _ => rfl
  | none :: polls, s, h => by
    rw [event_loop]
    simpa using va_event_loop_running polls s (fun e he => h e (List.mem_cons_of_mem _ he))
  | some event :: polls, s, h => by
    have hne : event.type ≠ SDL_QUIT := h event (List.mem_cons_self _ _)
    have hst : (loop_body s event).2.2 = none := by
      rw [va_loop_body_status]
      simp only [hne, ite_false]
    have ih := va_event_loop_running polls (loop_body s event).1
      (fun e he => h e (List.mem_cons_of_mem _ he))
    rw [event_loop]
    simp only [hst, ih, List.filterMap_cons, id, handled_in_order]

/-- The first quit event ends the event loop: the events before it are handled
in order, then `cleanup` is called and `main` returns `EXIT_SUCCESS`; what
follows the quit event is not looked at. -/
theorem va_event_loop_quit (quit : SDL_Event) (post : List (Option SDL_Event))
    (hquit : quit.type = SDL_QUIT) :
    ∀ (pre : List (Option SDL_Event)) (s : State),
      (∀ e, some e ∈ pre → e.type ≠ SDL_QUIT) →
      event_loop s (pre ++ some quit :: post) =
        ((handled_in_order s (pre.filterMap id)).1,
          (handled_in_order s (pre.filterMap id)).2 ++
            [.cleanup (cleanup (handled_in_order s (pre.filterMap id)).1)],
          some EXIT_SUCCESS)
  | [], s, _ => by
    simp only [List.nil_append, event_loop, va_loop_body_quit s quit hquit,
      List.filterMap_nil, handled_in_order, List.nil_append]
  | none :: pre, s, h => by
    rw [List.cons_append, event_loop]
    simpa using va_event_loop_quit quit post hquit pre s
      (fun e he => h e (List.mem_cons_of_mem _ he))
  | some event :: pre, s, h => by
    have hne : event.type ≠ SDL_QUIT := h event (List.mem_cons_self _ _)
    have hst : (loop_body s event).2.2 = none := by
      rw [va_loop_body_status]
      simp only [hne, ite_false]
    have ih := va_event_loop_quit quit post hquit pre (loop_body s event).1
      (fun e he => h e (List.mem_cons_of_mem _ he))
    rw [List.cons_append, event_loop]
    simp only [hst, ih, List.filterMap_cons, id, handled_in_order, List.append_assoc]

end ViewportArray

theorem Multiview.mv_setup_sample :
    (Multiview.setup Multiview.sample_gl Multiview.sample_state).ret = 0 := by
  simp [Multiview.setup, Multiview.SetupResult.and_then, Multiview.SetupResult.call,
    Multiview.SetupResult.call_if, Multiview.setup_fbo, Multiview.setup_fbo_loop,
    Multiview.setup_textures, Multiview.setup_clear_shader, Multiview.setup_scene_shader,
    Multiview.setup_buf_shader, Multiview.build_shader, Multiview.sample_gl,
    Multiview.sample_state, ShaderGL.ok]

theorem ViewportArray.va_setup_sample :
    (ViewportArray.setup ViewportArray.sample_gl ViewportArray.sample_state).ret = 0 := by
  decide

/-- C8. In both programs, from any state of the variables, the first
`SDL_QUIT` event makes `main` call `cleanup` and return `EXIT_SUCCESS`, which
is 0; until then `main` has not returned, whatever the events were, and the
events before the quit event have been handled one after the other in the
order of arrival. After a successful `setup` this is what `main` does. -/
theorem quit_event_ends_main_with_success
    (gl : Multiview.GLEnv) (s : Multiview.State)
    (vgl : ViewportArray.GLEnv) (vs : ViewportArray.State)
    (pre post : List (Option SDL_Event)) (quit : SDL_Event)
    (hquit : quit.type = SDL_QUIT)
    (hpre : ∀ e, some e ∈ pre → e.type ≠ SDL_QUIT) :
    EXIT_SUCCESS = 0 ∧
    (Multiview.event_loop gl s pre =
        ((Multiview.handled_in_order gl s (pre.filterMap id)).1,
          (Multiview.handled_in_order gl s (pre.filterMap id)).2, none) ∧
      Multiview.event_loop gl s (pre ++ some quit :: post) =
        ((Multiview.handled_in_order gl s (pre.filterMap id)).1,
          (Multiview.handled_in_order gl s (pre.filterMap id)).2 ++
            [.cleanup (Multiview.cleanup (Multiview.handled_in_order gl s (pre.filterMap id)).1)],
          some EXIT_SUCCESS) ∧
      (∀ stdout,
        Multiview.checkExtensions gl Multiview.State.init = some (s, stdout) →
        (Multiview.setup gl s).ret = 0 →
        Multiview.main gl pre =
          some ⟨(Multiview.handled_in_order gl (Multiview.setup gl s).state
              (pre.filterMap id)).1,
            [ .checkExtensions stdout, .setup (Multiview.setup gl s).stderr,
              .updateWindowTitle (Multiview.updateWindowTitle (Multiview.setup gl s).state) ] ++
            (Multiview.handled_in_order gl (Multiview.setup gl s).state (pre.filterMap id)).2,
            none⟩ ∧
        Multiview.main gl (pre ++ some quit :: post) =
          some ⟨(Multiview.handled_in_order gl (Multiview.setup gl s).state
              (pre.filterMap id)).1,
            [ .checkExtensions stdout, .setup (Multiview.setup gl s).stderr,
              .updateWindowTitle (Multiview.updateWindowTitle (Multiview.setup gl s).state) ] ++
            ((Multiview.handled_in_order gl (Multiview.setup gl s).state (pre.filterMap id)).2 ++
              [.cleanup (Multiview.cleanup
                (Multiview.handled_in_order gl (Multiview.setup gl s).state
                  (pre.filterMap id)).1)]),
            some EXIT_SUCCESS⟩)) ∧
    (ViewportArray.event_loop vs pre =
        ((ViewportArray.handled_in_order vs (pre.filterMap id)).1,
          (ViewportArray.handled_in_order vs (pre.filterMap id)).2, none) ∧
      ViewportArray.event_loop vs (pre ++ some quit :: post) =
        ((ViewportArray.handled_in_order vs (pre.filterMap id)).1,
          (ViewportArray.handled_in_order vs (pre.filterMap id)).2 ++
            [.cleanup (ViewportArray.cleanup
              (ViewportArray.handled_in_order vs (pre.filterMap id)).1)],
          some EXIT_SUCCESS) ∧
      (∀ stdout,
        ViewportArray.checkExtensions vgl ViewportArray.State.init = some (vs, stdout) →
        (ViewportArray.setup vgl vs).ret = 0 →
        ViewportArray.main vgl pre =
          some ⟨(ViewportArray.handled_in_order (ViewportArray.setup vgl vs).state
              (pre.filterMap id)).1,
            [ .checkExtensions stdout, .setup (ViewportArray.setup vgl vs).stderr,
              .updateWindowTitle
                (ViewportArray.updateWindowTitle (ViewportArray.setup vgl vs).state) ] ++
            (ViewportArray.handled_in_order (ViewportArray.setup vgl vs).state
              (pre.filterMap id)).2,
            none⟩ ∧
        ViewportArray.main vgl (pre ++ some quit :: post) =
          some ⟨(ViewportArray.handled_in_order (ViewportArray.setup vgl vs).state
              (pre.filterMap id)).1,
            [ .checkExtensions stdout, .setup (ViewportArray.setup vgl vs).stderr,
              .updateWindowTitle
                (ViewportArray.updateWindowTitle (ViewportArray.setup vgl vs).state) ] ++
            ((ViewportArray.handled_in_order (ViewportArray.setup vgl vs).state
                (pre.filterMap id)).2 ++
              [.cleanup (ViewportArray.cleanup
                (ViewportArray.handled_in_order (ViewportArray.setup vgl vs).state
                  (pre.filterMap id)).1)]),
            some EXIT_SUCCESS⟩)) := by
  refine ⟨rfl, ⟨Multiview.mv_event_loop_running gl pre s hpre,
    Multiview.mv_event_loop_quit gl quit post hquit pre s hpre, ?_⟩,
    ⟨ViewportArray.va_event_loop_running pre vs hpre,
      ViewportArray.va_event_loop_quit quit post hquit pre vs hpre, ?_⟩⟩
  · intro stdout hce hret
    unfold Multiview.main
    rw [hce]
    simp only [hret, ne_eq, not_true_eq_false, ite_false,
      Multiview.mv_event_loop_running gl pre _ hpre,
      Multiview.mv_event_loop_quit gl quit post hquit pre _ hpre, and_self]
  · intro stdout hce hret
    unfold ViewportArray.main
    rw [hce]
    simp only [hret, ne_eq, not_true_eq_false, ite_false,
      ViewportArray.va_event_loop_running pre _ hpre,
      ViewportArray.va_event_loop_quit quit post hquit pre _ hpre, and_self]

/-- C8, at the sample drivers: after a D press, an empty poll and a redraw,
the quit event makes both programs return 0 although an M press follows. -/
theorem quit_event_ends_main_with_success_witness :
    (Multiview.main Multiview.sample_gl
        ([some (key_down SDLK_d), none, some exposed_event] ++
          some quit_event :: [some (key_down SDLK_m)])).map Multiview.MainResult.status =
      some (some 0) ∧
    (ViewportArray.main ViewportArray.sample_gl
        ([some (key_down SDLK_d), none, some exposed_event] ++
          some quit_event :: [some (key_down SDLK_m)])).map ViewportArray.MainResult.status =
      some (some 0) := by
  have hpre : ∀ e, some e ∈ [some (key_down SDLK_d), none, some exposed_event] →
      e.type ≠ SDL_QUIT := by
    intro e he
    simp only [List.mem_cons, Option.some.injEq, List.mem_singleton, List.not_mem_nil,
      or_false, false_or, reduceCtorEq] at he
    rcases he with rfl | rfl <;> decide
  have h := quit_event_ends_main_with_success Multiview.sample_gl Multiview.sample_state
    ViewportArray.sample_gl ViewportArray.sample_state
    [some (key_down SDLK_d), none, some exposed_event] [some (key_down SDLK_m)]
    quit_event rfl hpre
  constructor
  · rw [(h.2.1.2.2 _ Multiview.mv_checkExtensions_sample Multiview.mv_setup_sample).2]
    rfl
  · rw [(h.2.2.2.2 _ ViewportArray.va_checkExtensions_sample ViewportArray.va_setup_sample).2]
    rfl

/-! ## Placement of the two triangles of `viewport_array.c` (C9) -/

set_option maxRecDepth 100000 in
/-- The vertex shader of `scene_prog[1]` assigns `gl_ViewportIndex = 1`. -/
theorem va_index_of_version_one :
    ViewportArray.shader_viewport_index (ViewportArray.scene_vert_src 1) = 1 := by
  decide

set_option maxRecDepth 100000 in
/-- The vertex shader of `scene_prog[0]` does not write `gl_ViewportIndex`. -/
theorem va_index_of_version_zero :
    ViewportArray.shader_viewport_index (ViewportArray.scene_vert_src 0) = 0 := by
  decide

/-- The draws of `render` on the fallback path. -/
theorem va_draws_fallback (st : ViewportArray.GLState) (s : ViewportArray.State)
    (h : s.viewport_array = false) :
    ViewportArray.GLState.run st (ViewportArray.render s) =
      [ ⟨some (.col 0), ⟨0, 0, 400, 400⟩⟩, ⟨some (.col 1), ⟨400, 0, 400, 400⟩⟩ ] := by
  simp only [ViewportArray.render, ViewportArray.render_triangle, h, Bool.not_false,
    ite_true, ite_false, Bool.false_eq_true, List.cons_append, List.nil_append,
    ViewportArray.GLState.run, ViewportArray.GLState.step, va_index_of_version_zero,
    List.append_nil, (by decide : ¬ (0 : Nat) = 1), ViewportArray.VP_WIDTH,
    ViewportArray.VP_HEIGHT]

/-- The draws of `render` on the viewport-array path. -/
theorem va_draws_array (st : ViewportArray.GLState) (s : ViewportArray.State)
    (h : s.viewport_array = true) :
    ViewportArray.GLState.run st (ViewportArray.render s) =
      [ ⟨some (.col 0), ⟨0, 0, 400, 400⟩⟩, ⟨some (.col 1), ⟨400, 0, 400, 400⟩⟩ ] := by
  simp only [ViewportArray.render, ViewportArray.render_triangle, h, Bool.not_true,
    ite_true, ite_false, Bool.false_eq_true, List.cons_append, List.nil_append,
    ViewportArray.GLState.run, ViewportArray.GLState.step, va_index_of_version_zero,
    va_index_of_version_one, List.append_nil, (by decide : ¬ (0 : Nat) = 1),
    ViewportArray.VP_WIDTH, ViewportArray.VP_HEIGHT]

/-- C9. With the viewport array as explicit GL state, from any GL state and
for both values of `viewport_array`, `render` of `viewport_array.c` draws the
first triangle (colours of `vpi = 0`) into the rectangle (0, 0, 400, 400) and
the second (colours of `vpi = 1`) into (400, 0, 400, 400), and nothing else;
so the viewport-array path and the fallback path cause the same draws. The two
rectangles are disjoint and together cover exactly the 800 x 400 window. -/
theorem both_paths_place_triangles_identically
    (st : ViewportArray.GLState) (s : ViewportArray.State) :
    ViewportArray.GLState.run st (ViewportArray.render s) =
      [ ⟨some (.col 0), ⟨0, 0, 400, 400⟩⟩, ⟨some (.col 1), ⟨400, 0, 400, 400⟩⟩ ] ∧
    ViewportArray.GLState.run st (ViewportArray.render { s with viewport_array := true }) =
      ViewportArray.GLState.run st
        (ViewportArray.render { s with viewport_array := false }) ∧
    (∀ px py : Int,
      ¬ ((⟨0, 0, 400, 400⟩ : ViewportArray.Viewport).covers px py ∧
        (⟨400, 0, 400, 400⟩ : ViewportArray.Viewport).covers px py)) ∧
    (∀ px py : Int,
      ((⟨0, 0, 400, 400⟩ : ViewportArray.Viewport).covers px py ∨
        (⟨400, 0, 400, 400⟩ : ViewportArray.Viewport).covers px py) ↔
      (0 ≤ px ∧ px < ViewportArray.SCREEN_WIDTH ∧
        0 ≤ py ∧ py < ViewportArray.SCREEN_HEIGHT)) ∧
    ViewportArray.SCREEN_WIDTH = 800 ∧ ViewportArray.SCREEN_HEIGHT = 400 := by
  refine ⟨?_, ?_, ?_, ?_, rfl, rfl⟩
  · rcases Bool.eq_false_or_eq_true s.viewport_array with h | h
    · exact va_draws_array st s h
    · exact va_draws_fallback st s h
  · rw [va_draws_array st _ rfl, va_draws_fallback st _ rfl]
  · intro px py
    simp only [ViewportArray.Viewport.covers]
    omega
  · intro px py
    have hw : ViewportArray.SCREEN_WIDTH = 800 := rfl
    have hh : ViewportArray.SCREEN_HEIGHT = 400 := rfl
    simp only [ViewportArray.Viewport.covers, hw, hh]
    omega

/-! ## The invariant reached by a successful `setup` (C10) -/

namespace Multiview

theorem mv_and_then_success (a : SetupResult) (rest : State → SetupResult)
    (h : (a.and_then rest).ret = 0) :
    a.ret = 0 ∧ (rest a.state).ret = 0 ∧
      (a.and_then rest).state = (rest a.state).state ∧
      (a.and_then rest).calls = a.calls ++ (rest a.state).calls := by
  by_cases ha : a.ret = 0
  · unfold SetupResult.and_then at h ⊢
    simp only [ha, ne_eq, not_true_eq_false, ite_false] at h ⊢
    exact ⟨trivial, h, trivial, trivial⟩
  · exfalso
    apply ha
    unfold SetupResult.and_then at h
    simp only [ha, ne_eq, not_false_eq_true, ite_true] at h

theorem mv_call_success (c : SetupCall) (f : State → State × Int × List String)
    (s : State) (h : (SetupResult.call c f s).ret = 0) :
    (f s).2.1 = 0 ∧ (SetupResult.call c f s).state = (f s).1 ∧
      (SetupResult.call c f s).calls = [(c, 0)] := by
  have h0 : (f s).2.1 = 0 := by
    by_contra hne
    exact (mv_call_ret_ne_zero c f s).mpr hne h
  refine ⟨h0, rfl, ?_⟩
  rw [mv_call_calls, h0]

theorem mv_call_if_success (cond : Bool) (c : SetupCall)
    (f : State → State × Int × List String) (s : State)
    (h : (SetupResult.call_if cond c f s).ret = 0) :
    (SetupResult.call_if cond c f s).state = (if cond then (f s).1 else s) ∧
      (SetupResult.call_if cond c f s).calls = (if cond then [(c, 0)] else []) := by
  cases cond
  · exact ⟨rfl, rfl⟩
  · have h' : (SetupResult.call c f s).ret = 0 := h
    obtain ⟨-, h2, h3⟩ := mv_call_success c f s h'
    exact ⟨h2, h3⟩

/-- The state and the calls of a `setup` that returns 0. -/
theorem mv_setup_success (gl : GLEnv) (s0 : State) (h : (setup gl s0).ret = 0) :
    (setup gl s0).state =
      (setup_buf_shader gl
        (setup_scene_shader gl 0
          (setup_clear_shader gl 0
            (if s0.supports_multiview then
              (setup_scene_shader gl 1
                (setup_clear_shader gl 1 (setup_fbo gl (setup_textures gl s0)).1).1).1
            else (setup_fbo gl (setup_textures gl s0)).1)).1).1).1 ∧
    (setup gl s0).calls =
      [(SetupCall.setup_fbo, 0)] ++
      (if s0.supports_multiview then
        [(SetupCall.setup_clear_shader 1, 0), (SetupCall.setup_scene_shader 1, 0)] else []) ++
      [(SetupCall.setup_clear_shader 0, 0), (SetupCall.setup_scene_shader 0, 0),
        (SetupCall.setup_buf_shader, 0)] := by
  unfold setup at h ⊢
  obtain ⟨a1, r1, s1, c1⟩ := mv_and_then_success _ _ h
  obtain ⟨a2, r2, s2, c2⟩ := mv_and_then_success _ _ r1
  obtain ⟨a3, r3, s3, c3⟩ := mv_and_then_success _ _ r2
  obtain ⟨a4, r4, s4, c4⟩ := mv_and_then_success _ _ r3
  obtain ⟨a5, r5, s5, c5⟩ := mv_and_then_success _ _ r4
  obtain ⟨-, t1, d1⟩ := mv_call_success _ _ _ a1
  obtain ⟨t2, d2⟩ := mv_call_if_success _ _ _ _ a2
  obtain ⟨t3, d3⟩ := mv_call_if_success _ _ _ _ a3
  obtain ⟨-, t4, d4⟩ := mv_call_success _ _ _ a4
  obtain ⟨-, t5, d5⟩ := mv_call_success _ _ _ a5
  obtain ⟨-, t6, d6⟩ := mv_call_success _ _ _ r5
  constructor
  · rw [s1, s2, s3, s4, s5, t6, t5, t4, t3, t2, t1]
    cases hs : s0.supports_multiview <;> simp [hs, setup_fbo, setup_textures,
      setup_clear_shader, setup_scene_shader]
  · rw [c1, c2, c3, c4, c5, d6, d5, d4, d3, d2, d1, t2, t1]
    cases hs : s0.supports_multiview <;> simp [hs, setup_fbo, setup_textures,
      setup_clear_shader, setup_scene_shader]

theorem mv_checkExtensions_shape (gl : GLEnv) (s0 : State) (stdout : List String)
    (h : checkExtensions gl State.init = some (s0, stdout)) :
    ∃ b, s0 = { State.init with supports_multiview := b, multiview := b } := by
  unfold checkExtensions at h
  split at h
  · exact absurd h (by simp)
  · rename_i b _
    simp only [Option.some.injEq, Prod.mk.injEq] at h
    exact ⟨b, h.1.symm⟩

/-- A successful `setup` after `checkExtensions` establishes the invariant. -/
theorem mv_ready_after_setup (gl : GLEnv) (s0 : State) (b : Bool)
    (hs0 : s0 = { State.init with supports_multiview := b, multiview := b })
    (h : (setup gl s0).ret = 0) : Ready gl s0 (setup gl s0).state := by
  obtain ⟨hstate, hcalls⟩ := mv_setup_success gl s0 h
  have hne := (mv_setup_ret_ne_zero gl s0).not.mp (by simp [h])
  simp only [not_or, not_and] at hne
  obtain ⟨-, hc1, hs1, hc0, hsc0, hb⟩ := hne
  unfold Ready
  rw [hstate, hcalls]
  subst hs0
  cases b
  · refine ⟨fun hm => absurd (show false = true from hm) (by decide), rfl, rfl, ?_, hb, rfl,
      by simp⟩
    rintro k (rfl | ⟨-, hk⟩)
    · exact ⟨⟨hc0, rfl, by simp⟩, ⟨hsc0, rfl, by simp⟩⟩
    · exact absurd hk (by decide)
  · refine ⟨fun _ => rfl, rfl, rfl, ?_, hb, rfl, by simp⟩
    rintro k (rfl | ⟨rfl, -⟩)
    · exact ⟨⟨hc0, rfl, by simp⟩, ⟨hsc0, rfl, by simp⟩⟩
    · exact ⟨⟨hc1 rfl, rfl, by simp⟩, ⟨hs1 rfl, rfl, by simp⟩⟩

/-- The invariant only reads the mode flags, the number of framebuffers and
the program names. -/
theorem mv_ready_congr (gl : GLEnv) (s0 s t : State) (h : Ready gl s0 s)
    (hm : t.multiview = true → t.supports_multiview = true)
    (h1 : t.supports_multiview = s.supports_multiview)
    (h2 : t.num_fbos = s.num_fbos) (h3 : t.clear_prog = s.clear_prog)
    (h4 : t.scene_prog = s.scene_prog) (h5 : t.buf_prog = s.buf_prog) :
    Ready gl s0 t := by
  unfold Ready at h ⊢
  rw [h1, h2, h3, h4, h5]
  exact ⟨h1 ▸ hm, h.2⟩

theorem mv_ready_render (gl : GLEnv) (s0 s : State) (h : Ready gl s0 s) :
    Ready gl s0 (render gl s).1 := by
  have hst := mv_render_state gl s
  refine mv_ready_congr gl s0 s _ h ?_ ?_ ?_ ?_ ?_ ?_ <;> rw [hst]
  exact h.1

/-- In a state that satisfies the invariant `render` binds and uses only what
`setup` made. -/
theorem mv_render_safe (gl : GLEnv) (s0 s : State) (h : Ready gl s0 s) :
    Safe gl s0 (render gl s).2 := by
  obtain ⟨hm, hsup, -, hprog, hbuf⟩ := h
  have hp := mv_render_passes gl s
  rcases Bool.eq_false_or_eq_true s.multiview with hmv | hmv
  · obtain ⟨-, -, hfb, hpr⟩ := hp.1 hmv
    have hs0 : s0.supports_multiview = true := hsup ▸ hm hmv
    have h1 := hprog 1 (Or.inr ⟨rfl, hs0⟩)
    unfold Safe
    rw [hfb, hpr, hs0]
    refine ⟨?_, ?_, ?_, ?_⟩
    · intro i hi
      simp only [List.mem_cons, Framebuffer.fbo.injEq, List.mem_singleton, reduceCtorEq,
        or_false, List.not_mem_nil] at hi
      subst hi
      decide
    · intro k name hk
      simp only [List.mem_cons, Prod.mk.injEq, Program.clear_prog.injEq, reduceCtorEq,
        false_and, List.mem_singleton, or_false, List.not_mem_nil] at hk
      obtain ⟨rfl, rfl⟩ := hk
      exact h1.1
    · intro k name hk
      simp only [List.mem_cons, Prod.mk.injEq, Program.scene_prog.injEq, reduceCtorEq,
        false_and, List.mem_singleton, or_false, false_or, List.not_mem_nil] at hk
      obtain ⟨rfl, rfl⟩ := hk
      exact h1.2
    · intro name hk
      simp only [List.mem_cons, Prod.mk.injEq, reduceCtorEq, false_and, true_and,
        List.mem_singleton, or_false, false_or, List.not_mem_nil] at hk
      subst hk
      exact hbuf
  · obtain ⟨-, -, hfb, hpr⟩ := hp.2 hmv
    have h0 := hprog 0 (Or.inl rfl)
    unfold Safe
    rw [hfb, hpr]
    refine ⟨?_, ?_, ?_, ?_⟩
    · intro i hi
      simp only [List.mem_cons, Framebuffer.fbo.injEq, List.mem_singleton, reduceCtorEq,
        or_false, List.not_mem_nil] at hi
      rcases hi with rfl | rfl <;> split_ifs <;> decide
    · intro k name hk
      simp only [List.mem_cons, Prod.mk.injEq, Program.clear_prog.injEq, reduceCtorEq,
        false_and, List.mem_singleton, or_false, false_or, List.not_mem_nil, or_self] at hk
      obtain ⟨rfl, rfl⟩ := hk
      exact h0.1
    · intro k name hk
      simp only [List.mem_cons, Prod.mk.injEq, Program.scene_prog.injEq, reduceCtorEq,
        false_and, List.mem_singleton, or_false, false_or, List.not_mem_nil, or_self] at hk
      obtain ⟨rfl, rfl⟩ := hk
      exact h0.2
    · intro name hk
      simp only [List.mem_cons, Prod.mk.injEq, reduceCtorEq, false_and, true_and,
        List.mem_singleton, or_false, false_or, List.not_mem_nil] at hk
      subst hk
      exact hbuf

/-- The body of the event loop for a window-exposed event. -/
theorem mv_loop_body_exposed (gl : GLEnv) (s : State) (event : SDL_Event)
    (ht : event.type = SDL_WINDOWEVENT) (hw : event.window_event = SDL_WINDOWEVENT_EXPOSED) :
    loop_body gl s event = ((render gl s).1, [.render (render gl s).2], none) := by
  have h1 : SDL_WINDOWEVENT ≠ SDL_QUIT := by decide
  have h2 : SDL_WINDOWEVENT ≠ SDL_KEYDOWN := by decide
  unfold loop_body
  simp only [ht, hw, h1, h2, ite_true, ite_false, and_self, List.nil_append]

/-- The body of the event loop for an event the program does not react to. -/
theorem mv_loop_body_ignored (gl : GLEnv) (s : State) (event : SDL_Event)
    (h1 : event.type ≠ SDL_QUIT) (h2 : event.type ≠ SDL_KEYDOWN)
    (h3 : ¬ (event.type = SDL_WINDOWEVENT ∧ event.window_event = SDL_WINDOWEVENT_EXPOSED)) :
    loop_body gl s event = (s, [], none) := by
  unfold loop_body
  simp only [h1, h2, h3, ite_false, List.append_nil]

/-- The body of the event loop keeps the invariant, and every render it makes
is made in a state that satisfies it. -/
theorem mv_loop_body_ready (gl : GLEnv) (s0 s : State) (event : SDL_Event)
    (h : Ready gl s0 s) :
    Ready gl s0 (loop_body gl s event).1 ∧
      ∀ calls, Op.render calls ∈ (loop_body gl s event).2.1 → Safe gl s0 calls := by
  by_cases hq : event.type = SDL_QUIT
  · rw [mv_loop_body_quit gl s event hq]
    refine ⟨h, ?_⟩
    intro calls hc
    simp only [List.mem_singleton, reduceCtorEq] at hc
  by_cases hk : event.type = SDL_KEYDOWN
  · by_cases hd : event.sym = SDLK_d
    · have hr : Ready gl s0 { s with display_lists := !s.display_lists } :=
        mv_ready_congr gl s0 s _ h h.1 rfl rfl rfl rfl rfl
      rw [mv_loop_body_d gl s event hk hd]
      refine ⟨mv_ready_render gl s0 _ hr, ?_⟩
      intro calls hc
      simp only [List.mem_cons, reduceCtorEq, Op.render.injEq, List.mem_singleton,
        false_or, List.not_mem_nil, or_false] at hc
      subst hc
      exact mv_render_safe gl s0 _ hr
    · by_cases hm : s.supports_multiview = true ∧ event.sym = SDLK_m
      · have hr : Ready gl s0 { s with multiview := !s.multiview } :=
          mv_ready_congr gl s0 s _ h (fun _ => hm.1) rfl rfl rfl rfl rfl
        rw [mv_loop_body_m gl s event hm.1 hk hm.2]
        refine ⟨mv_ready_render gl s0 _ hr, ?_⟩
        intro calls hc
        simp only [List.mem_cons, reduceCtorEq, Op.render.injEq, List.mem_singleton,
          false_or, List.not_mem_nil, or_false] at hc
        subst hc
        exact mv_render_safe gl s0 _ hr
      · have hm' : s.supports_multiview = false ∨ event.sym ≠ SDLK_m := by
          by_cases hs : s.supports_multiview = true
          · exact Or.inr (fun he => hm ⟨hs, he⟩)
          · exact Or.inl (Bool.eq_false_iff.mpr hs)
        rw [mv_loop_body_other_key gl s event hk hd hm']
        exact ⟨h, fun calls hc => absurd hc (List.not_mem_nil _)⟩
  by_cases hw : event.type = SDL_WINDOWEVENT ∧ event.window_event = SDL_WINDOWEVENT_EXPOSED
  · rw [mv_loop_body_exposed gl s event hw.1 hw.2]
    refine ⟨mv_ready_render gl s0 _ h, ?_⟩
    intro calls hc
    simp only [List.mem_singleton, Op.render.injEq] at hc
    subst hc
    exact mv_render_safe gl s0 _ h
  · rw [mv_loop_body_ignored gl s event hq hk hw]
    exact ⟨h, fun calls hc => absurd hc (List.not_mem_nil _)⟩

/-- The event loop keeps the invariant, and every render it makes is made in a
state that satisfies it. -/
theorem mv_event_loop_ready (gl : GLEnv) (s0 : State) :
    ∀ (polls : List (Option SDL_Event)) (s : State), Ready gl s0 s →
      Ready gl s0 (event_loop gl s polls).1 ∧
        ∀ calls, Op.render calls ∈ (event_loop gl s polls).2.1 → Safe gl s0 calls
  | [], s, h => ⟨h, fun calls hc => absurd hc (List.not_mem_nil _)⟩
  | none :: polls, s, h => by
    rw [event_loop]
    exact mv_event_loop_ready gl s0 polls s h
  | some event :: polls, s, h => by
    obtain ⟨hb, hbs⟩ := mv_loop_body_ready gl s0 s event h
    obtain ⟨hr, hrs⟩ := mv_event_loop_ready gl s0 polls _ hb
    rw [event_loop]
    cases hst : (loop_body gl s event).2.2 with
    | some status => exact ⟨hb, hbs⟩
    | none =>
      refine ⟨hr, ?_⟩
      intro calls hc
      simp only [List.mem_append] at hc
      rcases hc with hc | hc
      · exact hbs calls hc
      · exact hrs calls hc

end Multiview

namespace ViewportArray

theorem va_checkExtensions_shape (gl : GLEnv) (s0 : State) (stdout : List String)
    (h : checkExtensions gl State.init = some (s0, stdout)) :
    ∃ b, s0 = { State.init with supports_viewport_array := b, viewport_array := b } := by
  unfold checkExtensions at h
  split at h
  · exact absurd h (by simp)
  · rename_i b _
    simp only [Option.some.injEq, Prod.mk.injEq] at h
    exact ⟨b, h.1.symm⟩

/-- The state and the calls of a `setup` that returns 0. -/
theorem va_setup_success (gl : GLEnv) (s0 : State) (h : (setup gl s0).ret = 0) :
    (setup gl s0).state =
      (setup_scene_shader gl 0
        (if s0.supports_viewport_array then (setup_scene_shader gl 1 s0).1 else s0)).1 ∧
    (setup gl s0).calls =
      (if s0.supports_viewport_array then [(1, 0)] else []) ++ [(0, 0)] := by
  have hne := (va_setup_ret_ne_zero gl s0).not.mp (by simp [h])
  simp only [not_or, not_and] at hne
  obtain ⟨h1, h0⟩ := hne
  have r0 : ∀ t, (setup_scene_shader gl 0 t).2.1 = 0 := by
    intro t
    by_contra hc
    exact h0 ((va_setup_scene_shader_ret gl 0 t).mp hc)
  have r1 : s0.supports_viewport_array = true → ∀ t, (setup_scene_shader gl 1 t).2.1 = 0 := by
    intro hs t
    by_contra hc
    exact h1 hs ((va_setup_scene_shader_ret gl 1 t).mp hc)
  unfold setup SetupResult.call_if SetupResult.and_then SetupResult.call
  cases hs : s0.supports_viewport_array
  · simp [r0]
  · simp [r0, r1 hs]

/-- A successful `setup` after `checkExtensions` establishes the invariant. -/
theorem va_ready_after_setup (gl : GLEnv) (s0 : State) (b : Bool)
    (hs0 : s0 = { State.init with supports_viewport_array := b, viewport_array := b })
    (h : (setup gl s0).ret = 0) : Ready gl s0 (setup gl s0).state := by
  obtain ⟨hstate, hcalls⟩ := va_setup_success gl s0 h
  have hne := (va_setup_ret_ne_zero gl s0).not.mp (by simp [h])
  simp only [not_or, not_and] at hne
  obtain ⟨h1, h0⟩ := hne
  unfold Ready
  rw [hstate, hcalls]
  subst hs0
  cases b
  · refine ⟨fun hm => absurd (show false = true from hm) (by decide), rfl, ?_⟩
    rintro k (rfl | ⟨-, hk⟩)
    · exact ⟨h0, rfl, by simp⟩
    · exact absurd hk (by decide)
  · refine ⟨fun _ => rfl, rfl, ?_⟩
    rintro k (rfl | ⟨rfl, -⟩)
    · exact ⟨h0, rfl, by simp⟩
    · exact ⟨h1 rfl, rfl, by simp⟩

/-- The programs `render` uses. -/
theorem va_render_programs (s : State) :
    (render s).filterMap Call.program? =
      [ (0, s.scene_prog.getD 0 0),
        (if s.viewport_array then 1 else 0,
          s.scene_prog.getD (if s.viewport_array then 1 else 0) 0) ] := by
  unfold render
  cases s.viewport_array <;> rfl

/-- In a state that satisfies the invariant `render` uses only programs that
`setup` built. -/
theorem va_render_safe (gl : GLEnv) (s0 s : State) (h : Ready gl s0 s) :
    Safe gl s0 (render s) := by
  obtain ⟨hm, hsup, hprog⟩ := h
  unfold Safe
  rw [va_render_programs]
  intro k name hk
  simp only [List.mem_cons, Prod.mk.injEq, List.mem_singleton, List.not_mem_nil,
    or_false] at hk
  rcases hk with ⟨rfl, rfl⟩ | ⟨rfl, rfl⟩
  · have h0 := hprog 0 (Or.inl rfl)
    exact ⟨h0.1, h0.2.1, h0.2.2, fun hk => absurd hk (by decide)⟩
  · rcases Bool.eq_false_or_eq_true s.viewport_array with hv | hv
    · have hs0 : s0.supports_viewport_array = true := hsup ▸ hm hv
      have h1 := hprog 1 (Or.inr ⟨rfl, hs0⟩)
      simp only [hv, ite_true]
      exact ⟨h1.1, h1.2.1, h1.2.2, fun _ => hs0⟩
    · have h0 := hprog 0 (Or.inl rfl)
      simp only [hv, ite_false, Bool.false_eq_true]
      exact ⟨h0.1, h0.2.1, h0.2.2, fun hk => absurd hk (by decide)⟩

/-- The body of the event loop for a window-exposed event. -/
theorem va_loop_body_exposed (s : State) (event : SDL_Event)
    (ht : event.type = SDL_WINDOWEVENT) (hw : event.window_event = SDL_WINDOWEVENT_EXPOSED) :
    loop_body s event = (s, [.render (render s)], none) := by
  have h1 : SDL_WINDOWEVENT ≠ SDL_QUIT := by decide
  have h2 : SDL_WINDOWEVENT ≠ SDL_KEYDOWN := by decide
  unfold loop_body
  simp only [ht, hw, h1, h2, ite_true, ite_false, and_self, List.nil_append]

/-- The body of the event loop for an event the program does not react to. -/
theorem va_loop_body_ignored (s : State) (event : SDL_Event)
    (h1 : event.type ≠ SDL_QUIT) (h2 : event.type ≠ SDL_KEYDOWN)
    (h3 : ¬ (event.type = SDL_WINDOWEVENT ∧ event.window_event = SDL_WINDOWEVENT_EXPOSED)) :
    loop_body s event = (s, [], none) := by
  unfold loop_body
  simp only [h1, h2, h3, ite_false, List.append_nil]

/-- The body of the event loop keeps the invariant, and every render it makes
is made in a state that satisfies it. -/
theorem va_loop_body_ready (gl : GLEnv) (s0 s : State) (event : SDL_Event)
    (h : Ready gl s0 s) :
    Ready gl s0 (loop_body s event).1 ∧
      ∀ calls, Op.render calls ∈ (loop_body s event).2.1 → Safe gl s0 calls := by
  by_cases hq : event.type = SDL_QUIT
  · rw [va_loop_body_quit s event hq]
    refine ⟨h, ?_⟩
    intro calls hc
    simp only [List.mem_singleton, reduceCtorEq] at hc
  by_cases hk : event.type = SDL_KEYDOWN
  · by_cases hv : s.supports_viewport_array = true ∧ event.sym = SDLK_v
    · have hr : Ready gl s0 { s with viewport_array := !s.viewport_array } :=
        ⟨fun _ => hv.1, h.2.1, h.2.2⟩
      rw [va_loop_body_v s event hv.1 hk hv.2]
      refine ⟨hr, ?_⟩
      intro calls hc
      simp only [List.mem_cons, reduceCtorEq, Op.render.injEq, List.mem_singleton,
        false_or, List.not_mem_nil, or_false] at hc
      subst hc
      exact va_render_safe gl s0 _ hr
    · have hv' : s.supports_viewport_array = false ∨ event.sym ≠ SDLK_v := by
        by_cases hs : s.supports_viewport_array = true
        · exact Or.inr (fun he => hv ⟨hs, he⟩)
        · exact Or.inl (Bool.eq_false_iff.mpr hs)
      rw [va_loop_body_other_key s event hk hv']
      exact ⟨h, fun calls hc => absurd hc (List.not_mem_nil _)⟩
  by_cases hw : event.type = SDL_WINDOWEVENT ∧ event.window_event = SDL_WINDOWEVENT_EXPOSED
  · rw [va_loop_body_exposed s event hw.1 hw.2]
    refine ⟨h, ?_⟩
    intro calls hc
    simp only [List.mem_singleton, Op.render.injEq] at hc
    subst hc
    exact va_render_safe gl s0 _ h
  · rw [va_loop_body_ignored s event hq hk hw]
    exact ⟨h, fun calls hc => absurd hc (List.not_mem_nil _)⟩

/-- The event loop keeps the invariant, and every render it makes is made in a
state that satisfies it. -/
theorem va_event_loop_ready (gl : GLEnv) (s0 : State) :
    ∀ (polls : List (Option SDL_Event)) (s : State), Ready gl s0 s →
      Ready gl s0 (event_loop s polls).1 ∧
        ∀ calls, Op.render calls ∈ (event_loop s polls).2.1 → Safe gl s0 calls
  | [], s, h => ⟨h, fun calls hc => absurd hc (List.not_mem_nil _)⟩
  | none :: polls, s, h => by
    rw [event_loop]
    exact va_event_loop_ready gl s0 polls s h
  | some event :: polls, s, h => by
    obtain ⟨hb, hbs⟩ := va_loop_body_ready gl s0 s event h
    obtain ⟨hr, hrs⟩ := va_event_loop_ready gl s0 polls _ hb
    rw [event_loop]
    cases hst : (loop_body s event).2.2 with
    | some status => exact ⟨hb, hbs⟩
    | none =>
      refine ⟨hr, ?_⟩
      intro calls hc
      simp only [List.mem_append] at hc
      rcases hc with hc | hc
      · exact hbs calls hc
      · exact hrs calls hc

end ViewportArray

/-- C10. Reachable-state invariant. In `multiview.c`, in every state reached
from `checkExtensions`, a successful `setup` and any sequence of polled
events, `multiview` implies `supports_multiview` (which is still as
`checkExtensions` left it) and `num_fbos` is 3 when supported and 2 otherwise;
and in every render made while handling those events, and in a render made in
the state reached, every `fbo[i]` bound has `i < num_fbos`, and every
`clear_prog[k]`, `scene_prog[k]` and `buf_prog` used holds the nonzero name
returned by a build that `setup` made. In `viewport_array.c`, likewise,
`viewport_array` implies `supports_viewport_array`, every `scene_prog[k]`
used holds the nonzero name returned by a build that `setup` made, and
`scene_prog[1]` is used only when the viewport array is supported. -/
theorem reachable_states_use_only_built_objects
    (gl : Multiview.GLEnv) (s0 : Multiview.State) (stdout : List String)
    (vgl : ViewportArray.GLEnv) (vs0 : ViewportArray.State) (vstdout : List String)
    (polls : List (Option SDL_Event)) :
    (Multiview.checkExtensions gl Multiview.State.init = some (s0, stdout) →
      (Multiview.setup gl s0).ret = 0 →
      ((Multiview.event_loop gl (Multiview.setup gl s0).state polls).1.multiview = true →
        (Multiview.event_loop gl (Multiview.setup gl s0).state polls).1.supports_multiview
          = true) ∧
      (Multiview.event_loop gl (Multiview.setup gl s0).state polls).1.supports_multiview =
        s0.supports_multiview ∧
      (Multiview.event_loop gl (Multiview.setup gl s0).state polls).1.num_fbos =
        (if s0.supports_multiview then 3 else 2) ∧
      (∀ calls,
        Multiview.Op.render calls ∈
            (Multiview.event_loop gl (Multiview.setup gl s0).state polls).2.1 ∨
          calls = (Multiview.render gl
            (Multiview.event_loop gl (Multiview.setup gl s0).state polls).1).2 →
        (∀ i, Multiview.Framebuffer.fbo i ∈ calls.filterMap Multiview.Call.framebuffer? →
          i < (Multiview.event_loop gl (Multiview.setup gl s0).state polls).1.num_fbos) ∧
        (∀ k name,
          (Multiview.Program.clear_prog k, name) ∈ calls.filterMap Multiview.Call.program? →
          name ≠ 0 ∧
          name = (Multiview.build_shader "Clear" (Multiview.clear_vert_src k)
            Multiview.clear_frag_src (gl.clear k)).prog ∧
          (Multiview.SetupCall.setup_clear_shader k, 0) ∈ (Multiview.setup gl s0).calls) ∧
        (∀ k name,
          (Multiview.Program.scene_prog k, name) ∈ calls.filterMap Multiview.Call.program? →
          name ≠ 0 ∧
          name = (Multiview.build_shader "Scene" (Multiview.scene_vert_src k)
            Multiview.scene_frag_src (gl.scene k)).prog ∧
          (Multiview.SetupCall.setup_scene_shader k, 0) ∈ (Multiview.setup gl s0).calls) ∧
        (∀ name,
          (Multiview.Program.buf_prog, name) ∈ calls.filterMap Multiview.Call.program? →
          name ≠ 0 ∧
          name = (Multiview.build_shader "Buffer" Multiview.buf_vert_src
            Multiview.buf_frag_src gl.buf).prog ∧
          (Multiview.SetupCall.setup_buf_shader, 0) ∈ (Multiview.setup gl s0).calls))) ∧
    (ViewportArray.checkExtensions vgl ViewportArray.State.init = some (vs0, vstdout) →
      (ViewportArray.setup vgl vs0).ret = 0 →
      ((ViewportArray.event_loop (ViewportArray.setup vgl vs0).state polls).1.viewport_array
          = true →
        (ViewportArray.event_loop (ViewportArray.setup vgl vs0).state
          polls).1.supports_viewport_array = true) ∧
      (ViewportArray.event_loop (ViewportArray.setup vgl vs0).state
        polls).1.supports_viewport_array = vs0.supports_viewport_array ∧
      (∀ calls,
        ViewportArray.Op.render calls ∈
            (ViewportArray.event_loop (ViewportArray.setup vgl vs0).state polls).2.1 ∨
          calls = ViewportArray.render
            (ViewportArray.event_loop (ViewportArray.setup vgl vs0).state polls).1 →
        ∀ k name, (k, name) ∈ calls.filterMap ViewportArray.Call.program? →
          name ≠ 0 ∧
          name = (ViewportArray.build_shader "Scene" (ViewportArray.scene_vert_src k)
            ViewportArray.scene_frag_src (vgl.scene k)).prog ∧
          (k, 0) ∈ (ViewportArray.setup vgl vs0).calls ∧
          (k = 1 → vs0.supports_viewport_array = true))) := by
  constructor
  · intro hce hsetup
    obtain ⟨b, hb⟩ := Multiview.mv_checkExtensions_shape gl s0 stdout hce
    have hr0 := Multiview.mv_ready_after_setup gl s0 b hb hsetup
    obtain ⟨hr, hrs⟩ := Multiview.mv_event_loop_ready gl s0 polls _ hr0
    refine ⟨hr.1, hr.2.1, hr.2.2.1, ?_⟩
    intro calls hc
    have hsafe : Multiview.Safe gl s0 calls := by
      rcases hc with hc | hc
      · exact hrs calls hc
      · rw [hc]
        exact Multiview.mv_render_safe gl s0 _ hr
    rw [hr.2.2.1]
    exact hsafe
  · intro hce hsetup
    obtain ⟨b, hb⟩ := ViewportArray.va_checkExtensions_shape vgl vs0 vstdout hce
    have hr0 := ViewportArray.va_ready_after_setup vgl vs0 b hb hsetup
    obtain ⟨hr, hrs⟩ := ViewportArray.va_event_loop_ready vgl vs0 polls _ hr0
    refine ⟨hr.1, hr.2.1, ?_⟩
    intro calls hc
    rcases hc with hc | hc
    · exact hrs calls hc
    · rw [hc]
      exact ViewportArray.va_render_safe vgl vs0 _ hr

/-- C10, at the sample drivers after an M (resp. V) press and a redraw: the
next render binds only framebuffers below 3, and uses `scene_prog[1]` of
`viewport_array.c` only with the name its build returned. -/
theorem reachable_states_use_only_built_objects_witness :
    (∀ i, Multiview.Framebuffer.fbo i ∈
        (Multiview.render Multiview.sample_gl
          (Multiview.event_loop Multiview.sample_gl
            (Multiview.setup Multiview.sample_gl Multiview.sample_state).state
            [some (key_down SDLK_m), some (key_down SDLK_v), some exposed_event]).1).2.filterMap
          Multiview.Call.framebuffer? →
      i < 3) ∧
    (∀ name, (1, name) ∈
        (ViewportArray.render
          (ViewportArray.event_loop
            (ViewportArray.setup ViewportArray.sample_gl ViewportArray.sample_state).state
            [some (key_down SDLK_m), some (key_down SDLK_v),
              some exposed_event]).1).filterMap ViewportArray.Call.program? →
      name = 2) := by
  have h := reachable_states_use_only_built_objects Multiview.sample_gl Multiview.sample_state
    ["GL_OVR_multiview is supported and ENABLED\n"]
    ViewportArray.sample_gl ViewportArray.sample_state
    ["GL_ARB_shader_viewport_layer_array is supported and ENABLED\n"]
    [some (key_down SDLK_m), some (key_down SDLK_v), some exposed_event]
  obtain ⟨-, -, h3, h4⟩ := h.1 Multiview.mv_checkExtensions_sample Multiview.mv_setup_sample
  obtain ⟨-, -, h5⟩ := h.2 ViewportArray.va_checkExtensions_sample
    ViewportArray.va_setup_sample
  constructor
  · intro i hi
    have hlt := (h4 _ (Or.inr rfl)).1 i hi
    rw [h3] at hlt
    exact hlt
  · intro name hn
    exact (h5 _ (Or.inr rfl) 1 name hn).2.1

/-! ## Diagnostics of `build_shader` (C11) -/

/-- What `build_shader` of `multiview.c` returns and writes, by the first
status that is false. -/
theorem mv_build_shader_cases (name vert_src frag_src : String) (o : ShaderGL) :
    (o.vert_status = 0 →
      (Multiview.build_shader name vert_src frag_src o).prog = 0 ∧
      (Multiview.build_shader name vert_src frag_src o).stderr =
        [vertex_diagnostic name o.vert_log]) ∧
    (o.vert_status ≠ 0 → o.frag_status = 0 →
      (Multiview.build_shader name vert_src frag_src o).prog = 0 ∧
      (Multiview.build_shader name vert_src frag_src o).stderr =
        [fragment_diagnostic name o.frag_log]) ∧
    (o.vert_status ≠ 0 → o.frag_status ≠ 0 → o.link_status = 0 →
      (Multiview.build_shader name vert_src frag_src o).prog = 0 ∧
      (Multiview.build_shader name vert_src frag_src o).stderr =
        [link_diagnostic name o.link_log]) ∧
    (o.vert_status ≠ 0 → o.frag_status ≠ 0 → o.link_status ≠ 0 →
      (Multiview.build_shader name vert_src frag_src o).prog = o.prog ∧
      (Multiview.build_shader name vert_src frag_src o).stderr = []) := by
  unfold Multiview.build_shader
  refine ⟨?_, ?_, ?_, ?_⟩
  · intro hv
    simp only [hv, ite_true]
    exact ⟨trivial, rfl⟩
  · intro hv hf
    simp only [hv, hf, ite_true, ite_false]
    exact ⟨trivial, rfl⟩
  · intro hv hf hl
    simp only [hv, hf, hl, ite_true, ite_false]
    exact ⟨trivial, rfl⟩
  · intro hv hf hl
    simp only [hv, hf, hl, ite_false]
    exact ⟨trivial, trivial⟩

/-- The three diagnostics of one call are different lines. -/
theorem diagnostics_differ (name vert_log frag_log link_log : String) :
    vertex_diagnostic name vert_log ≠ fragment_diagnostic name frag_log ∧
    vertex_diagnostic name vert_log ≠ link_diagnostic name link_log ∧
    fragment_diagnostic name frag_log ≠ link_diagnostic name link_log := by
  unfold vertex_diagnostic fragment_diagnostic link_diagnostic
  refine ⟨?_, ?_, ?_⟩ <;>
    · intro h
      have hd := congrArg String.data h
      simp only [String.data_append, List.append_assoc, List.append_cancel_left_eq] at hd
      simp at hd

/-- C11, as the code has it. For every combination of outcomes of the GL calls
of `build_shader` (in either program): a nonzero return value comes with no
diagnostic, and a written diagnostic comes with return value 0; and when
`glCreateProgram` returns a nonzero name or some compile or link status is
false, a return value of 0 comes with exactly one line on `stderr`, which is
one of the three diagnostics (three different lines). The case left out is the
one where all three statuses are success and `glCreateProgram` returns 0. -/
theorem build_shader_diagnoses_status_failures
    (name vert_src frag_src : String) (o : ShaderGL) :
    (∀ b ∈ [Multiview.build_shader name vert_src frag_src o,
          ViewportArray.build_shader name vert_src frag_src o],
      (b.prog ≠ 0 → b.stderr = []) ∧
      (b.stderr ≠ [] → b.prog = 0) ∧
      (o.prog ≠ 0 ∨ o.vert_status = 0 ∨ o.frag_status = 0 ∨ o.link_status = 0 →
        b.prog = 0 →
        ∃ line, b.stderr = [line] ∧
          (line = vertex_diagnostic name o.vert_log ∨
            line = fragment_diagnostic name o.frag_log ∨
            line = link_diagnostic name o.link_log))) ∧
    vertex_diagnostic name o.vert_log ≠ fragment_diagnostic name o.frag_log ∧
    vertex_diagnostic name o.vert_log ≠ link_diagnostic name o.link_log ∧
    fragment_diagnostic name o.frag_log ≠ link_diagnostic name o.link_log := by
  refine ⟨?_, diagnostics_differ name _ _ _⟩
  intro b hmem
  simp only [List.mem_cons, List.mem_singleton, List.not_mem_nil, or_false,
    va_build_shader_eq, or_self] at hmem
  subst hmem
  obtain ⟨hv, hf, hl, hok⟩ := mv_build_shader_cases name vert_src frag_src o
  by_cases h1 : o.vert_status = 0
  · obtain ⟨hp, he⟩ := hv h1
    rw [hp, he]
    exact ⟨fun h => absurd rfl h, fun _ => rfl, fun _ _ => ⟨_, rfl, Or.inl rfl⟩⟩
  by_cases h2 : o.frag_status = 0
  · obtain ⟨hp, he⟩ := hf h1 h2
    rw [hp, he]
    exact ⟨fun h => absurd rfl h, fun _ => rfl, fun _ _ => ⟨_, rfl, Or.inr (Or.inl rfl)⟩⟩
  by_cases h3 : o.link_status = 0
  · obtain ⟨hp, he⟩ := hl h1 h2 h3
    rw [hp, he]
    exact ⟨fun h => absurd rfl h, fun _ => rfl, fun _ _ => ⟨_, rfl, Or.inr (Or.inr rfl)⟩⟩
  · obtain ⟨hp, he⟩ := hok h1 h2 h3
    rw [hp, he]
    refine ⟨fun _ => rfl, fun h => absurd rfl h, ?_⟩
    rintro (h | h | h | h) hz
    · exact absurd hz h
    · exact absurd h h1
    · exact absurd h h2
    · exact absurd h h3

/-- C11, at a build whose fragment shader does not compile: the return value
is 0 and the one line written is the fragment diagnostic. -/
theorem build_shader_diagnoses_status_failures_witness :
    ∃ line,
      (Multiview.build_shader "Scene" (Multiview.scene_vert_src 0) Multiview.scene_frag_src
        ShaderGL.bad_fragment).stderr = [line] ∧
      (line = vertex_diagnostic "Scene" "" ∨
        line = fragment_diagnostic "Scene" "0:1: error" ∨
        line = link_diagnostic "Scene" "") :=
  ((build_shader_diagnoses_status_failures "Scene" (Multiview.scene_vert_src 0)
    Multiview.scene_frag_src ShaderGL.bad_fragment).1 _ (List.mem_cons_self _ _)).2.2
    (Or.inl (by decide)) (by decide)

/-- C11 as stated fails: when both shaders compile, the program links and
`glCreateProgram` returns 0, `build_shader` (of either program) returns 0 and
writes nothing, so it is not true that every return value of 0 comes with a
diagnostic; `main` of `multiview.c` then returns `EXIT_FAILURE` with an empty
`stderr`. -/
theorem build_shader_returns_zero_silently :
    (Multiview.build_shader "Buffer" Multiview.buf_vert_src Multiview.buf_frag_src
        (ShaderGL.ok 0)).prog = 0 ∧
    (Multiview.build_shader "Buffer" Multiview.buf_vert_src Multiview.buf_frag_src
        (ShaderGL.ok 0)).stderr = [] ∧
    (ViewportArray.build_shader "Scene" (ViewportArray.scene_vert_src 0)
        ViewportArray.scene_frag_src (ShaderGL.ok 0)).prog = 0 ∧
    (ViewportArray.build_shader "Scene" (ViewportArray.scene_vert_src 0)
        ViewportArray.scene_frag_src (ShaderGL.ok 0)).stderr = [] ∧
    ¬ (∀ (name vert_src frag_src : String) (o : ShaderGL),
      (Multiview.build_shader name vert_src frag_src o).prog = 0 →
      ∃ line, (Multiview.build_shader name vert_src frag_src o).stderr = [line] ∧
        (line = vertex_diagnostic name o.vert_log ∨
          line = fragment_diagnostic name o.frag_log ∨
          line = link_diagnostic name o.link_log)) ∧
    (Multiview.main { Multiview.sample_gl with buf := ShaderGL.ok 0 } []).map
        (fun r => (r.ops, r.status)) =
      some ([ .checkExtensions ["GL_OVR_multiview is supported and ENABLED\n"], .setup [] ],
        some EXIT_FAILURE) := by
  refine ⟨by decide, by decide, by decide, by decide, ?_, ?_⟩
  · intro h
    obtain ⟨line, hline, -⟩ := h "Buffer" Multiview.buf_vert_src Multiview.buf_frag_src
      (ShaderGL.ok 0) (by decide)
    have hnone : (Multiview.build_shader "Buffer" Multiview.buf_vert_src
        Multiview.buf_frag_src (ShaderGL.ok 0)).stderr = [] := by
      decide
    rw [hnone] at hline
    exact List.noConfusion hline
  · simp [Multiview.main, Multiview.checkExtensions, Multiview.checkExtensions_loop,
      to_unsigned, strcmp, Multiview.State.init, Multiview.setup,
      Multiview.SetupResult.and_then, Multiview.SetupResult.call,
      Multiview.SetupResult.call_if, Multiview.setup_fbo, Multiview.setup_fbo_loop,
      Multiview.setup_textures, Multiview.setup_clear_shader, Multiview.setup_scene_shader,
      Multiview.setup_buf_shader, Multiview.build_shader, Multiview.sample_gl, ShaderGL.ok,
      EXIT_FAILURE]

/-! ## The scene display list (C12) -/

namespace Multiview

/-- A call of `render_scene` with display lists off draws the triangle
directly and changes nothing. -/
theorem mv_render_scene_direct (gl : GLEnv) (b : State) (hd : b.display_lists = false) :
    render_scene gl b = (b, scene_viewports ++ render_triangle) := by
  unfold render_scene
  simp only [hd, Bool.false_eq_true, ite_false]
  rfl

/-- A call of `render_scene` with display lists on and a list already there
only calls that list and changes nothing. -/
theorem mv_render_scene_call (gl : GLEnv) (b : State) (hd : b.display_lists = true)
    (hl : b.scene_list ≠ 0) :
    render_scene gl b = (b, scene_viewports ++ [.glCallList b.scene_list]) := by
  unfold render_scene
  simp only [hd, hl, ite_true, ite_false]
  rfl

/-- A call of `render_scene` with display lists on and no list yet generates
one, compiles the triangle into it and calls it. -/
theorem mv_render_scene_compile (gl : GLEnv) (b : State) (hd : b.display_lists = true)
    (hl : b.scene_list = 0) :
    render_scene gl b =
      ({ b with
          scene_list := gl.gen_lists b.gen_lists_calls
          gen_lists_calls := b.gen_lists_calls + 1 },
        scene_viewports ++
          [ .glGenLists 1, .glNewList (gl.gen_lists b.gen_lists_calls) ] ++
          render_triangle ++
          [ .glEndList, .glCallList (gl.gen_lists b.gen_lists_calls) ]) := by
  unfold render_scene
  simp only [hd, hl, ite_true]
  rfl

/-- Only the compiling call issues `glGenLists` and `glNewList`. -/
theorem mv_render_scene_no_compile (gl : GLEnv) (b : State)
    (h : b.display_lists = false ∨ b.scene_list ≠ 0) :
    (render_scene gl b).1 = b ∧ Call.glGenLists 1 ∉ (render_scene gl b).2 ∧
      ∀ l, Call.glNewList l ∉ (render_scene gl b).2 := by
  rcases Bool.eq_false_or_eq_true b.display_lists with hd | hd
  · rcases h with h | h
    · rw [hd] at h
      exact absurd h (by decide)
    · rw [mv_render_scene_call gl b hd h]
      refine ⟨rfl, ?_, ?_⟩
      · simp [scene_viewports]
      · intro l
        simp [scene_viewports]
  · rw [mv_render_scene_direct gl b hd]
    refine ⟨rfl, ?_, ?_⟩
    · simp [scene_viewports, render_triangle]
    · intro l
      simp [scene_viewports, render_triangle]

/-- Once `scene_list` is nonzero no sequence of steps changes it or compiles
a list. -/
theorem mv_scene_list_stable (gl : GLEnv) :
    ∀ (steps : List SceneStep) (b : State), b.scene_list ≠ 0 →
      (scene_steps gl b steps).1.scene_list = b.scene_list ∧
      ∀ e ∈ (scene_steps gl b steps).2,
        e.1.scene_list = b.scene_list ∧ Call.glGenLists 1 ∉ e.2 ∧
          ∀ l, Call.glNewList l ∉ e.2
  | [], b, _ => ⟨rfl, fun e he => absurd he (List.not_mem_nil _)⟩
  | .toggle_display_lists :: steps, b, hb => by
    rw [scene_steps]
    exact mv_scene_list_stable gl steps { b with display_lists := !b.display_lists } hb
  | .render_scene :: steps, b, hb => by
    obtain ⟨hst, hg, hn⟩ := mv_render_scene_no_compile gl b (Or.inr hb)
    have ih := mv_scene_list_stable gl steps (render_scene gl b).1 (by rw [hst]; exact hb)
    rw [hst] at ih
    rw [scene_steps]
    simp only [hst]
    refine ⟨ih.1, ?_⟩
    intro e he
    simp only [List.mem_cons] at he
    rcases he with rfl | he
    · exact ⟨rfl, hg, hn⟩
    · exact ih.2 e he

end Multiview

namespace Multiview

/-- The run of a sequence is the run of its first part followed by the run of
the rest from the state reached. -/
theorem mv_scene_steps_append (gl : GLEnv) :
    ∀ (pre post : List SceneStep) (s : State),
      scene_steps gl s (pre ++ post) =
        ((scene_steps gl (scene_steps gl s pre).1 post).1,
          (scene_steps gl s pre).2 ++ (scene_steps gl (scene_steps gl s pre).1 post).2)
  | [], post, s => rfl
  | .toggle_display_lists :: pre, post, s => by
    rw [List.cons_append, scene_steps, scene_steps]
    exact mv_scene_steps_append gl pre post _
  | .render_scene :: pre, post, s => by
    rw [List.cons_append, scene_steps, scene_steps]
    simp only [mv_scene_steps_append gl pre post (render_scene gl s).1, List.cons_append]

/-- The number of `glGenLists` commands a call of `render_scene` issues. -/
theorem mv_render_scene_count (gl : GLEnv) (b : State) :
    (render_scene gl b).2.count (Call.glGenLists 1) =
      if b.display_lists = true ∧ b.scene_list = 0 then 1 else 0 := by
  by_cases h : b.display_lists = true ∧ b.scene_list = 0
  · rw [mv_render_scene_compile gl b h.1 h.2]
    simp [h, scene_viewports, render_triangle]
  · have h' : b.display_lists = false ∨ b.scene_list ≠ 0 := by
      by_cases hd : b.display_lists = true
      · exact Or.inr (fun hl => h ⟨hd, hl⟩)
      · exact Or.inl (Bool.eq_false_iff.mpr hd)
    simp only [h, ite_false]
    exact List.count_eq_zero.mpr (mv_render_scene_no_compile gl b h').2.1

/-- With `glGenLists` never returning 0, a list is generated at most once. -/
theorem mv_scene_list_generated_once (gl : GLEnv) (hgen : ∀ k, gl.gen_lists k ≠ 0) :
    ∀ (steps : List SceneStep) (s : State),
      (((scene_steps gl s steps).2.map Prod.snd).flatten).count (Call.glGenLists 1) ≤ 1
  | [], s => by simp [scene_steps]
  | .toggle_display_lists :: steps, s => by
    rw [scene_steps]
    exact mv_scene_list_generated_once gl hgen steps _
  | .render_scene :: steps, s => by
    rw [scene_steps]
    simp only [List.map_cons, List.flatten_cons, List.count_append, mv_render_scene_count]
    by_cases h : s.display_lists = true ∧ s.scene_list = 0
    · have hne : (render_scene gl s).1.scene_list ≠ 0 := by
        rw [mv_render_scene_compile gl s h.1 h.2]
        exact hgen _
      have hrest : (((scene_steps gl (render_scene gl s).1 steps).2.map Prod.snd).flatten).count
          (Call.glGenLists 1) = 0 := by
        rw [List.count_eq_zero]
        intro hmem
        simp only [List.mem_flatten, List.mem_map] at hmem
        obtain ⟨calls, ⟨e, he, rfl⟩, hc⟩ := hmem
        exact ((mv_scene_list_stable gl steps _ hne).2 e he).2.1 hc
      simp only [h, and_self, ite_true, hrest]
      exact le_refl 1
    · simp only [h, ite_false, Nat.zero_add]
      exact mv_scene_list_generated_once gl hgen steps _

/-- With `glGenLists` never returning 0, while `scene_list` is still 0 no call
has generated a list. -/
theorem mv_scene_list_not_yet (gl : GLEnv) (hgen : ∀ k, gl.gen_lists k ≠ 0) :
    ∀ (steps : List SceneStep) (s : State), (scene_steps gl s steps).1.scene_list = 0 →
      ∀ e ∈ (scene_steps gl s steps).2,
        e.1.scene_list = 0 ∧ Call.glGenLists 1 ∉ e.2 ∧ ∀ l, Call.glNewList l ∉ e.2
  | [], s, _ => fun e he => absurd he (List.not_mem_nil _)
  | .toggle_display_lists :: steps, s, h => by
    rw [scene_steps] at h ⊢
    exact mv_scene_list_not_yet gl hgen steps _ h
  | .render_scene :: steps, s, h => by
    rw [scene_steps] at h ⊢
    have hs0 : s.scene_list = 0 := by
      by_contra hne
      obtain ⟨hst, -, -⟩ := mv_render_scene_no_compile gl s (Or.inr hne)
      have hstable := (mv_scene_list_stable gl steps (render_scene gl s).1
        (by rw [hst]; exact hne)).1
      rw [hst] at hstable
      simp only at h
      rw [hst] at h
      exact hne (hstable ▸ h)
    have hd : s.display_lists = false := by
      by_contra hd
      have hd' : s.display_lists = true := by
        cases hx : s.display_lists
        · exact absurd hx hd
        · rfl
      have hne : (render_scene gl s).1.scene_list ≠ 0 := by
        rw [mv_render_scene_compile gl s hd' hs0]
        exact hgen _
      have hstable := (mv_scene_list_stable gl steps (render_scene gl s).1 hne).1
      simp only at h
      exact hne (hstable ▸ h)
    obtain ⟨hst, hg, hn⟩ := mv_render_scene_no_compile gl s (Or.inl hd)
    intro e he
    simp only [List.mem_cons] at he
    rcases he with rfl | he
    · exact ⟨hs0, hg, hn⟩
    · exact mv_scene_list_not_yet gl hgen steps _ h e he

/-- Every entry of the log of a run holds the commands of `render_scene`
called in the state recorded with it. -/
theorem mv_scene_steps_log (gl : GLEnv) :
    ∀ (steps : List SceneStep) (s : State),
      ∀ e ∈ (scene_steps gl s steps).2, e.2 = (render_scene gl e.1).2
  | [], s => fun e he => absurd he (List.not_mem_nil _)
  | .toggle_display_lists :: steps, s => by
    rw [scene_steps]
    exact mv_scene_steps_log gl steps _
  | .render_scene :: steps, s => by
    rw [scene_steps]
    intro e he
    simp only [List.mem_cons] at he
    rcases he with rfl | he
    · rfl
    · exact mv_scene_steps_log gl steps _ e he

/-- The D key handler is a D toggle followed by the `render_scene` calls of
one `render`: one call when multiview is on, two when it is off. -/
theorem mv_d_key_as_steps (gl : GLEnv) (s : State) (event : SDL_Event)
    (hdown : event.type = SDL_KEYDOWN) (hd : event.sym = SDLK_d) :
    (loop_body gl s event).1 =
      (scene_steps gl s
        (.toggle_display_lists ::
          List.replicate (if s.multiview then 1 else 2) .render_scene)).1 := by
  rw [mv_loop_body_d gl s event hdown hd]
  rcases Bool.eq_false_or_eq_true s.multiview with hm | hm
  · rw [mv_render_multiview gl { s with display_lists := !s.display_lists } hm]
    simp only [hm, ite_true, List.replicate, scene_steps]
  · rw [mv_render_two_pass gl { s with display_lists := !s.display_lists } hm]
    simp only [hm, ite_false, Bool.false_eq_true, List.replicate, scene_steps]

end Multiview

/-- C12. In `multiview.c`, assuming `glGenLists` never returns 0, for every
sequence of `render_scene` calls interleaved with D toggles, from any state:
the run splits at each call into what went before, the call, and what follows;
at most one `glGenLists` command is issued in the whole sequence; while
`scene_list` is still 0 no earlier call has generated or compiled a list. A
call made with `display_lists` false draws the triangle directly and changes
no variable; a call made with `display_lists` true and `scene_list` nonzero
only calls that list and changes no variable; a call made with `display_lists`
true and `scene_list` 0 generates a list, compiles the triangle into it, calls
it and leaves `scene_list` nonzero. From a state with `scene_list` nonzero, no
later step changes `scene_list` and no later call generates or compiles a
list: each later call with `display_lists` true only calls the existing list,
and each with `display_lists` false draws the triangle directly. The D key
handler of `main` is such a sequence: a toggle and the `render_scene` calls of
one `render`. -/
theorem scene_list_is_compiled_at_most_once
    (gl : Multiview.GLEnv) (hgen : ∀ k, gl.gen_lists k ≠ 0)
    (s : Multiview.State) (pre post : List Multiview.SceneStep) :
    Multiview.scene_steps gl s (pre ++ .render_scene :: post) =
      ((Multiview.scene_steps gl
          (Multiview.render_scene gl (Multiview.scene_steps gl s pre).1).1 post).1,
        (Multiview.scene_steps gl s pre).2 ++
          ((Multiview.scene_steps gl s pre).1,
            (Multiview.render_scene gl (Multiview.scene_steps gl s pre).1).2) ::
          (Multiview.scene_steps gl
            (Multiview.render_scene gl (Multiview.scene_steps gl s pre).1).1 post).2) ∧
    (((Multiview.scene_steps gl s (pre ++ .render_scene :: post)).2.map
        Prod.snd).flatten).count (Multiview.Call.glGenLists 1) ≤ 1 ∧
    ((Multiview.scene_steps gl s pre).1.scene_list = 0 →
      ∀ e ∈ (Multiview.scene_steps gl s pre).2,
        e.1.scene_list = 0 ∧ Multiview.Call.glGenLists 1 ∉ e.2 ∧
          ∀ l, Multiview.Call.glNewList l ∉ e.2) ∧
    (∀ b : Multiview.State,
      (b.display_lists = false →
        Multiview.render_scene gl b =
          (b, Multiview.scene_viewports ++ Multiview.render_triangle)) ∧
      (b.display_lists = true → b.scene_list ≠ 0 →
        Multiview.render_scene gl b =
          (b, Multiview.scene_viewports ++ [.glCallList b.scene_list])) ∧
      (b.display_lists = true → b.scene_list = 0 →
        Multiview.render_scene gl b =
          ({ b with
              scene_list := gl.gen_lists b.gen_lists_calls
              gen_lists_calls := b.gen_lists_calls + 1 },
            Multiview.scene_viewports ++
              [ .glGenLists 1, .glNewList (gl.gen_lists b.gen_lists_calls) ] ++
              Multiview.render_triangle ++
              [ .glEndList, .glCallList (gl.gen_lists b.gen_lists_calls) ]) ∧
        (Multiview.render_scene gl b).1.scene_list ≠ 0) ∧
      (b.scene_list ≠ 0 →
        (Multiview.scene_steps gl b post).1.scene_list = b.scene_list ∧
        ∀ e ∈ (Multiview.scene_steps gl b post).2,
          e.1.scene_list = b.scene_list ∧ Multiview.Call.glGenLists 1 ∉ e.2 ∧
            (∀ l, Multiview.Call.glNewList l ∉ e.2) ∧
            (e.1.display_lists = true →
              e.2 = Multiview.scene_viewports ++ [.glCallList b.scene_list]) ∧
            (e.1.display_lists = false →
              e.2 = Multiview.scene_viewports ++ Multiview.render_triangle))) ∧
    (∀ event : SDL_Event, event.type = SDL_KEYDOWN → event.sym = SDLK_d →
      (Multiview.loop_body gl s event).1 =
        (Multiview.scene_steps gl s
          (.toggle_display_lists ::
            List.replicate (if s.multiview then 1 else 2) .render_scene)).1) := by
  refine ⟨?_, Multiview.mv_scene_list_generated_once gl hgen _ s,
    Multiview.mv_scene_list_not_yet gl hgen pre s, ?_,
    fun event hdown hd => Multiview.mv_d_key_as_steps gl s event hdown hd⟩
  · rw [Multiview.mv_scene_steps_append, Multiview.scene_steps]
  · intro b
    refine ⟨Multiview.mv_render_scene_direct gl b, Multiview.mv_render_scene_call gl b, ?_, ?_⟩
    · intro hd hl
      refine ⟨Multiview.mv_render_scene_compile gl b hd hl, ?_⟩
      rw [Multiview.mv_render_scene_compile gl b hd hl]
      exact hgen _
    · intro hb
      obtain ⟨hfin, hlog⟩ := Multiview.mv_scene_list_stable gl post b hb
      refine ⟨hfin, ?_⟩
      intro e he
      obtain ⟨hl, hg, hn⟩ := hlog e he
      have hcalls := Multiview.mv_scene_steps_log gl post b e he
      refine ⟨hl, hg, hn, ?_, ?_⟩
      · intro hd
        rw [hcalls, Multiview.mv_render_scene_call gl e.1 hd (by rw [hl]; exact hb), hl]
      · intro hd
        rw [hcalls, Multiview.mv_render_scene_direct gl e.1 hd]

/-- C12, at the sample driver from the initial state: the first call compiles
list 1, and a sequence of three calls with two D toggles between them issues
`glGenLists` at most once and ends with `scene_list` still 1. -/
theorem scene_list_is_compiled_at_most_once_witness :
    (Multiview.render_scene Multiview.sample_gl Multiview.State.init).1.scene_list = 1 ∧
    (((Multiview.scene_steps Multiview.sample_gl Multiview.State.init
        ([.render_scene, .toggle_display_lists] ++
          .render_scene :: [.toggle_display_lists, .render_scene])).2.map
        Prod.snd).flatten).count (Multiview.Call.glGenLists 1) ≤ 1 ∧
    (Multiview.scene_steps Multiview.sample_gl
        (Multiview.render_scene Multiview.sample_gl Multiview.State.init).1
        [.toggle_display_lists, .render_scene]).1.scene_list = 1 := by
  have h := scene_list_is_compiled_at_most_once Multiview.sample_gl
    (fun k => Nat.succ_ne_zero k) Multiview.State.init
    [.render_scene, .toggle_display_lists] [.toggle_display_lists, .render_scene]
  obtain ⟨-, hcount, -, hcall, -⟩ := h
  have hfirst := ((hcall Multiview.State.init).2.2.1 rfl rfl).1
  have hone : (Multiview.render_scene Multiview.sample_gl Multiview.State.init).1.scene_list
      = 1 := by
    rw [hfirst]
    rfl
  refine ⟨hone, hcount, ?_⟩
  rw [((hcall _).2.2.2 (by rw [hone]; decide)).1, hone]
